import Mathlib

/-!
# Verification of the conversation-insights diagnosis pipeline

This file gives a shallow embedding, in Lean 4, of the parts of the
`conversation-insights` scripts that the specification talks about:

* `scripts/skill_runtime.py` — retry wrappers around Skill inference calls
  and the incremental chunking plan;
* `scripts/diagnose_helper.py` — the JSON writer, period-id computation,
  session-digest timeline selection, the two mechanism validators, the
  backfill selection predicate and the generated-by defaulting;
* `scripts/incremental_dimensions.py` — the dimension/layer registry;
* `scripts/_sync_analysis_reports_core.py` — duplicate grouping and the
  keeper/archival logic of the report sync.

Python values decoded from JSON are modelled by the inductive type `PyVal`;
machine integers are `Int` (Python integers are unbounded, so no wrap-around
modelling is needed); code that can raise is modelled in `Except`.
-/

namespace ConvInsights

/-- Decoded Python/JSON value.  `bool` is kept separate from `int` but is
treated as an `int` by `isinstance` checks, matching Python where `bool`
is a subclass of `int`.  Floats carry a rational payload; the validators
only type-test floats, never compute with them. -/
inductive PyVal where
  | none
  | bool (b : Bool)
  | int (n : Int)
  | float (q : ℚ)
  | str (s : String)
  | list (xs : List PyVal)
  | dict (entries : List (String × PyVal))
deriving Repr

namespace PyVal

/-- `d.get(key)` on a Python dict: first binding wins, absent keys give `None`. -/
def get : PyVal → String → PyVal
  | .dict entries, key =>
      match entries.find? (fun kv => kv.1 = key) with
      | some kv => kv.2
      | Option.none => .none
  | _, _ => .none

/-- Python truthiness of a decoded value. -/
def truthy : PyVal → Bool
  | .none => false
  | .bool b => b
  | .int n => n ≠ 0
  | .float q => q ≠ 0
  | .str s => ¬ s.isEmpty
  | .list xs => ¬ xs.isEmpty
  | .dict entries => ¬ entries.isEmpty

/-- `x or y` in Python: `y` when `x` is falsy, else `x`. -/
def orElse (x y : PyVal) : PyVal := if x.truthy then x else y

/-- `isinstance(x, str)`. -/
def isStr : PyVal → Bool
  | .str _ => true
  | _ => false

/-- `isinstance(x, int)`.  Python booleans are ints. -/
def isInt : PyVal → Bool
  | .int _ => true
  | .bool _ => true
  | _ => false

/-- `isinstance(x, (int, float))`. -/
def isNum : PyVal → Bool
  | .int _ => true
  | .bool _ => true
  | .float _ => true
  | _ => false

/-- `isinstance(x, list)`. -/
def isList : PyVal → Bool
  | .list _ => true
  | _ => false

/-- `isinstance(x, dict)`. -/
def isDict : PyVal → Bool
  | .dict _ => true
  | _ => false

/-- Integer value of a value known to satisfy `isInt` (booleans count as 0/1). -/
def intVal : PyVal → Int
  | .int n => n
  | .bool b => if b then 1 else 0
  | _ => 0

/-- `x is None`. -/
def isNone : PyVal → Bool
  | .none => true
  | _ => false

end PyVal

/-- Whether list `needle` occurs as a contiguous sublist of `hay`. -/
def listHasInfix (needle : List Char) : List Char → Bool
  | [] => needle.isEmpty
  | c :: rest => needle.isPrefixOf (c :: rest) || listHasInfix needle rest

/-- Python's `needle in hay` on strings. -/
def strContains (hay needle : String) : Bool :=
  listHasInfix needle.data hay.data

/-- Python `str.lower` (markers and tokens compared in this code are ASCII,
so ASCII lowering is faithful here). -/
def pyLower (s : String) : String :=
  String.mk (s.data.map Char.toLower)

/-- Python `str.strip` (whitespace in the strings this code handles is
ASCII, so trimming ASCII whitespace is faithful here). -/
def pyStrip (s : String) : String :=
  String.mk
    (((s.data.dropWhile Char.isWhitespace).reverse.dropWhile
        Char.isWhitespace).reverse)

/-- Lexicographic comparison of character lists by code point, as Python
compares strings. -/
def charListLt : List Char → List Char → Bool
  | [], [] => false
  | [], _ :: _ => true
  | _ :: _, [] => false
  | a :: as, b :: bs =>
      if a < b then true else if b < a then false else charListLt as bs

/-- Python `a < b` on strings. -/
def strLt (a b : String) : Bool := charListLt a.data b.data

/-- Python `a <= b` on strings. -/
def strLe (a b : String) : Bool := ¬ strLt b a

/-- Insert into a `strLe`-sorted list, keeping stability. -/
def insertSorted (x : String) : List String → List String
  | [] => [x]
  | y :: ys => if strLe x y then x :: y :: ys else y :: insertSorted x ys

/-- Python `sorted` on a list of strings (insertion sort; stable). -/
def sortStrings : List String → List String
  | [] => []
  | x :: xs => insertSorted x (sortStrings xs)

/-- Python `s.endswith(suffix)`. -/
def strEndsWith (s suffix : String) : Bool :=
  suffix.data.isSuffixOf s.data

/-- `int(body)` for a non-empty all-digit string. -/
def digitsToNat (cs : List Char) : Nat :=
  cs.foldl (fun acc c => 10 * acc + (c.toNat - '0'.toNat)) 0

/-- `str(x)` on the scalar values this code stringifies.  Containers and
floats never reach a `str()` call on the paths the spec claims are about;
they are rendered with a best-effort tag. -/
def pyStrOf : PyVal → String
  | .none => "None"
  | .bool b => if b then "True" else "False"
  | .int n => toString n
  | .str s => s
  | .float _ => "<float>"
  | .list _ => "<list>"
  | .dict _ => "<dict>"

/-- `str(x or "")`: the most common coercion pattern in the scripts. -/
def pyStrOr (x : PyVal) : String := pyStrOf (x.orElse (.str ""))

end ConvInsights

namespace ConvInsights

/-! ## skill_runtime.py — retry predicates and retry loop (claim C1) -/

/-- Source: `skill_runtime._is_retryable_claude_error`.  Lower-cases the
error text and looks for three transient-failure markers. -/
def is_retryable_claude_error (msg : String) : Bool :=
  let text := pyLower msg
  strContains text "timed out"
    || strContains text "failed rc=1"
    || strContains text "no json object found"

/-- Source: `skill_runtime._is_retryable_codex_error`.  Same as the Claude
predicate plus a rate-limit marker. -/
def is_retryable_codex_error (msg : String) : Bool :=
  let text := pyLower msg
  strContains text "timed out"
    || strContains text "failed rc=1"
    || strContains text "no json object found"
    || strContains text "rate limit"

/-- Outcome of a retry loop run: final result, number of attempts made,
and the list of back-off sleeps (in seconds) taken between attempts. -/
structure RetryOutcome (α : Type) where
  result : Except String α
  attempts : Nat
  sleeps : List Nat
deriving Repr

/-- Source: the `while True` loop shared by
`skill_runtime._infer_claude_with_retries`, `_infer_codex_with_retries`,
`_infer_incremental_claude_with_retries` and
`_infer_incremental_codex_with_retries`.  `outcomes k` is the result of the
`k`-th underlying CLI call (0-based); an error is retried only while
`attempt < maxRetries` and the error is retryable, sleeping
`min(2 ** attempt, 4)` seconds before the next attempt. -/
def retryFrom {α : Type} (retryable : String → Bool) (maxRetries : Nat)
    (outcomes : Nat → Except String α) (attempt : Nat) : RetryOutcome α :=
  match outcomes attempt with
  | .ok v => ⟨.ok v, attempt + 1, []⟩
  | .error e =>
      if h : maxRetries ≤ attempt ∨ ¬ retryable e then
        ⟨.error e, attempt + 1, []⟩
      else
        let rest := retryFrom retryable maxRetries outcomes (attempt + 1)
        ⟨rest.result, rest.attempts, min (2 ^ attempt) 4 :: rest.sleeps⟩
termination_by maxRetries + 1 - attempt
decreasing_by
  simp only [not_or, not_le] at h
  omega

/-- Source: `skill_runtime._infer_claude_with_retries` (`max_retries=2`). -/
def infer_claude_with_retries {α : Type} (outcomes : Nat → Except String α) :
    RetryOutcome α :=
  retryFrom is_retryable_claude_error 2 outcomes 0

/-- Source: `skill_runtime._infer_codex_with_retries` (`max_retries=2`). -/
def infer_codex_with_retries {α : Type} (outcomes : Nat → Except String α) :
    RetryOutcome α :=
  retryFrom is_retryable_codex_error 2 outcomes 0

/-- Source: `skill_runtime.run_api`, openai/anthropic branch: `infer_remote`
is invoked exactly once per session inside `try`/`except`; there is no retry
loop around the HTTP call, so the outcome of the first call is final. -/
def run_api_remote_session {α : Type} (outcomes : Nat → Except String α) :
    RetryOutcome α :=
  ⟨outcomes 0, 1, []⟩

/-! ## skill_runtime.py — incremental chunking plan (claim C5) -/

/-- Source: `skill_runtime._INCREMENTAL_CHUNK_SIZE`. -/
def INCREMENTAL_CHUNK_SIZE : Nat := 24

/-- The call plan `run_incremental_api` executes for a given session list:
either one inference call on the whole input, or per-chunk calls followed
by one aggregation call. -/
inductive IncrementalCallPlan (α : Type) where
  | single (sessions : List α)
  | chunked (chunks : List (List α)) (mergeSessions : List α)
      (chunkReportCount : Nat)
deriving Repr

/-- Source: `skill_runtime.run_incremental_api`, chunking section:
`use_chunking = len(session_items) > _INCREMENTAL_CHUNK_SIZE`; chunk `i`
is `session_items[start:end]` with `start = i*24`, `end = min(start+24, n)`;
the merge input has `sessions = []` and one `chunk_reports` entry per chunk. -/
def run_incremental_api_plan {α : Type} (sessionItems : List α) :
    IncrementalCallPlan α :=
  if sessionItems.length ≤ INCREMENTAL_CHUNK_SIZE then
    .single sessionItems
  else
    let totalChunks :=
      (sessionItems.length + INCREMENTAL_CHUNK_SIZE - 1) / INCREMENTAL_CHUNK_SIZE
    let chunks := (List.range totalChunks).map
      (fun i => (sessionItems.drop (i * INCREMENTAL_CHUNK_SIZE)).take
        INCREMENTAL_CHUNK_SIZE)
    .chunked chunks [] chunks.length

end ConvInsights

namespace ConvInsights

/-! ## diagnose_helper.py — constants -/

/-- Source: `diagnose_helper._SESSION_SCHEMA`. -/
def SESSION_SCHEMA : String := "session-mechanism.v1"

/-- Source: `diagnose_helper._INCREMENTAL_SCHEMA`. -/
def INCREMENTAL_SCHEMA : String := "incremental-mechanism.v1"

/-- Source: `diagnose_helper._PLACEHOLDER_TOKENS` (the core of
`_sync_analysis_reports_core._PLACEHOLDER_TOKENS` is the same tuple). -/
def PLACEHOLDER_TOKENS : List String :=
  ["placeholder", "insufficient-evidence", "no validated",
   "need more session mechanism outputs", "collect-more-session-insights",
   "tbd", "trigger-missing", "action-missing", "root-cause-missing",
   "gain-missing", "window-missing"]

/-- Source: `diagnose_helper._DISALLOWED_GENERATED_BY_ENGINES`. -/
def DISALLOWED_GENERATED_BY_ENGINES : List String :=
  ["manual", "mock", "template"]

/-- Source: `diagnose_helper._DISALLOWED_GENERATED_BY_PROVIDERS`. -/
def DISALLOWED_GENERATED_BY_PROVIDERS : List String :=
  ["skill-manual", "manual", "mock", "api-mock", "template"]

/-- Source: `diagnose_helper._DISALLOWED_RUN_ID_TOKENS`. -/
def DISALLOWED_RUN_ID_TOKENS : List String :=
  ["replace-mock-sidecars", "mock-sidecar", "mock-backfill"]

/-- Source: `diagnose_helper._MAX_DETAIL_LINES_PER_REPORT`. -/
def MAX_DETAIL_LINES_PER_REPORT : Nat := 80

/-! ## incremental_dimensions.py — Dimension Registry -/

/-- Source: `incremental_dimensions._DIMENSION_LAYER_PAIRS`. -/
def DIMENSION_LAYER_PAIRS : List (String × String) :=
  [("incremental-trigger-chains", "L2"),
   ("incremental-first-pass-diagnostics", "L2"),
   ("incremental-coverage-gap", "L2"),
   ("incremental-task-stratification", "L2"),
   ("incremental-root-causes", "L3"),
   ("incremental-change-delta", "L3"),
   ("incremental-interventions", "L3"),
   ("incremental-intervention-impact", "L3"),
   ("incremental-validation-loop", "L3"),
   ("incremental-compounding", "L3"),
   ("incremental-reuse-assets", "L3")]

/-- `DIMENSION_LAYER_MAP.get(dimension)`: lookup in the registry dict. -/
def dimensionLayerGet (dimension : String) : Option String :=
  match DIMENSION_LAYER_PAIRS.find? (fun kv => kv.1 = dimension) with
  | some kv => some kv.2
  | Option.none => Option.none

/-- Source: `incremental_dimensions.is_supported_dimension` (the strip of the
argument is already applied at the call site in the validator, which passes
`dimension = str(item.get("dimension") or "").strip()`). -/
def is_supported_dimension (dimension : String) : Bool :=
  (dimensionLayerGet (pyStrip dimension)).isSome

/-- `", ".join(sorted(DIMENSION_LAYER_MAP.keys()))` as used by the
unsupported-dimension error message. -/
def supportedDimensionsJoined : String :=
  String.intercalate ", " (sortStrings (DIMENSION_LAYER_PAIRS.map Prod.fst))

/-! ## diagnose_helper.py — placeholder and generated_by helpers -/

/-- Source: `diagnose_helper._contains_placeholder`. -/
def contains_placeholder (text : String) : Bool :=
  let content := pyLower (pyStrip text)
  content.isEmpty || PLACEHOLDER_TOKENS.any (fun token => strContains content token)

/-- Source: `diagnose_helper._generated_by_block_reason`. -/
def generated_by_block_reason (generated_by : PyVal) : Option String :=
  match generated_by with
  | .dict _ =>
      let engine := pyLower (pyStrip (pyStrOr (generated_by.get "engine")))
      let provider := pyLower (pyStrip (pyStrOr (generated_by.get "provider")))
      let run_id := pyLower (pyStrip (pyStrOr (generated_by.get "run_id")))
      if DISALLOWED_GENERATED_BY_ENGINES.contains engine then
        some ("generated_by.engine=" ++ engine ++ " is not allowed")
      else if DISALLOWED_GENERATED_BY_PROVIDERS.contains provider then
        some ("generated_by.provider=" ++ provider ++ " is not allowed")
      else if DISALLOWED_RUN_ID_TOKENS.any (fun token => strContains run_id token) then
        some ("generated_by.run_id contains blocked token: " ++ run_id)
      else Option.none
  | _ => Option.none

/-! ## diagnose_helper.py — session mechanism validator -/

/-- The recurring Python guard `isinstance(x, str) and x.strip()`:
true exactly when `x` is a string with non-whitespace content. -/
def isNonEmptyStrVal (v : PyVal) : Bool :=
  match v with
  | .str s => ¬ (pyStrip s).isEmpty
  | _ => false

/-- `v == expected` where `expected` is a Python string literal. -/
def pyEqStr (v : PyVal) (expected : String) : Bool :=
  match v with
  | .str s => s = expected
  | _ => false

/-- Source: `diagnose_helper._validate_evidence`.  This total version gives
the function's return value on the inputs where it does not raise: the
tier check's membership test hashes `tier` and raises `TypeError` in
Python when `tier` is a list or dict, a path modelled by
`validate_evidenceE`; under the faithful exception semantics the list/dict
instances of the tier conditional below are therefore unreachable. -/
def validate_evidence (evidence : PyVal) (index : Nat) : List String :=
  let session_id := evidence.get "session_id"
  let turn_id := evidence.get "turn_id"
  let snippet := evidence.get "snippet"
  let tier := evidence.get "tier"
  (if ¬ isNonEmptyStrVal session_id then
    ["evidence[" ++ toString index ++ "].session_id must be non-empty string"]
  else []) ++
  (if ¬ turn_id.isInt || turn_id.intVal ≤ 0 then
    ["evidence[" ++ toString index ++ "].turn_id must be positive integer"]
  else []) ++
  (if ¬ isNonEmptyStrVal snippet then
    ["evidence[" ++ toString index ++ "].snippet must be non-empty string"]
  else []) ++
  (if ¬ tier.isNone ∧ ¬ pyEqStr tier "primary" ∧ ¬ pyEqStr tier "supporting" then
    ["evidence[" ++ toString index ++ "].tier must be 'primary' or 'supporting' when present"]
  else [])

/-- The per-item body of the `why` loop in `validate_session_mechanism`. -/
def checkWhyItem (idx : Nat) (item : PyVal) : List String :=
  match item with
  | .dict _ =>
      (if ¬ isNonEmptyStrVal (item.get "hypothesis") then
        ["why[" ++ toString idx ++ "].hypothesis must be non-empty string"]
      else []) ++
      (let confidence := item.get "confidence"
       if ¬ confidence.isNone ∧ ¬ confidence.isNum then
        ["why[" ++ toString idx ++ "].confidence must be number when present"]
      else []) ++
      (match item.get "evidence" with
       | .list evs =>
           if evs.isEmpty then
             ["why[" ++ toString idx ++ "].evidence must be non-empty list"]
           else
             (evs.enum.map (fun p =>
               match p.2 with
               | PyVal.dict _ => validate_evidence p.2 p.1
               | _ => ["why[" ++ toString idx ++ "].evidence[" ++ toString p.1 ++ "] must be object"]
             )).flatten
       | _ => ["why[" ++ toString idx ++ "].evidence must be non-empty list"])
  | _ => ["why[" ++ toString idx ++ "] must be object"]

/-- The per-item body of the `how_to_improve` loop in
`validate_session_mechanism`. -/
def checkActionItem (idx : Nat) (action : PyVal) : List String :=
  match action with
  | .dict _ =>
      (["trigger", "action", "expected_gain", "validation_window"].filterMap
        (fun key =>
          if ¬ isNonEmptyStrVal (action.get key) then
            some ("how_to_improve[" ++ toString idx ++ "]." ++ key ++ " must be non-empty string")
          else Option.none))
  | _ => ["how_to_improve[" ++ toString idx ++ "] must be object"]

/-- The `generated_by` section of `validate_session_mechanism`: five
required non-empty string fields plus the block-reason check. -/
def checkGeneratedBy (generated_by : PyVal) : List String :=
  match generated_by with
  | .dict _ =>
      (["engine", "provider", "model", "run_id", "generated_at"].filterMap
        (fun key =>
          if ¬ isNonEmptyStrVal (generated_by.get key) then
            some ("generated_by." ++ key ++ " must be non-empty string")
          else Option.none)) ++
      (match generated_by_block_reason generated_by with
       | some reason => ["generated_by is blocked: " ++ reason]
       | Option.none => [])
  | _ => ["generated_by must be object"]

/-- Source: `diagnose_helper.validate_session_mechanism`.  Returns the
ordered list of human-readable error strings; the empty list means valid. -/
def validate_session_mechanism (payload : PyVal) : List String :=
  (if ¬ pyEqStr (payload.get "schema_version") SESSION_SCHEMA then
    ["schema_version must be '" ++ SESSION_SCHEMA ++ "'"]
  else []) ++
  (if ¬ isNonEmptyStrVal (payload.get "session_id") then
    ["session_id must be non-empty string"] else []) ++
  (if ¬ isNonEmptyStrVal (payload.get "created_at") then
    ["created_at must be non-empty string"] else []) ++
  (let week := payload.get "week"
   if ¬ week.isNone ∧ ¬ isNonEmptyStrVal week then
    ["week must be non-empty string when present"] else []) ++
  (let period_id := payload.get "period_id"
   if ¬ period_id.isNone ∧ ¬ isNonEmptyStrVal period_id then
    ["period_id must be non-empty string when present"] else []) ++
  (match payload.get "what_happened" with
   | .list xs => if xs.isEmpty then ["what_happened must be non-empty list"] else []
   | _ => ["what_happened must be non-empty list"]) ++
  (match payload.get "why" with
   | .list items =>
       if items.isEmpty then ["why must be non-empty list"]
       else (items.enum.map (fun p => checkWhyItem p.1 p.2)).flatten
   | _ => ["why must be non-empty list"]) ++
  (match payload.get "how_to_improve" with
   | .list actions =>
       if actions.isEmpty then ["how_to_improve must be non-empty list"]
       else (actions.enum.map (fun p => checkActionItem p.1 p.2)).flatten
   | _ => ["how_to_improve must be non-empty list"]) ++
  (let labels := payload.get "labels"
   if ¬ labels.isNone ∧ ¬ labels.isList then
    ["labels must be list when present"] else []) ++
  (if ¬ isNonEmptyStrVal (payload.get "summary") then
    ["summary must be non-empty string"] else []) ++
  checkGeneratedBy (payload.get "generated_by")

end ConvInsights

namespace ConvInsights

/-! ## diagnose_helper.py — incremental mechanism validator -/

/-- `key in d` on a Python dict (distinct from `.get`, which cannot tell a
missing key from a key bound to `None`). -/
def PyVal.hasKey : PyVal → String → Bool
  | .dict entries, key => (entries.find? (fun kv => kv.1 = key)).isSome
  | _, _ => false

/-- Whether a match of `diagnose_helper._EVIDENCE_DUMP_PATTERN`
(`(#t\d+|session[_-]?id|主证据[:：]|辅助证据[:：])`, case-insensitive)
starts at the head of `cs`, where `cs` is already lower-cased. -/
def evidenceDumpAt (cs : List Char) : Bool :=
  (match cs with
   | '#' :: 't' :: d :: _ => d.isDigit
   | _ => false) ||
  (("session".data.isPrefixOf cs &&
    (let rest := cs.drop 7
     "id".data.isPrefixOf rest ||
       (match rest with
        | c :: rest2 => (c = '_' || c = '-') && "id".data.isPrefixOf rest2
        | [] => false))) ||
   (("主证据".data.isPrefixOf cs &&
      (match cs.drop 3 with
       | c :: _ => c = ':' || c = '：'
       | [] => false)) ||
    ("辅助证据".data.isPrefixOf cs &&
      (match cs.drop 4 with
       | c :: _ => c = ':' || c = '：'
       | [] => false))))

/-- `re.search` of the evidence-dump pattern over every start position. -/
def evidenceDumpSearchAux : List Char → Bool
  | [] => evidenceDumpAt []
  | c :: rest => evidenceDumpAt (c :: rest) || evidenceDumpSearchAux rest

/-- Source: `diagnose_helper._EVIDENCE_DUMP_PATTERN.search(line)` as a
Boolean (the validator only tests whether a match exists).  The
`re.IGNORECASE` flag is modelled by lower-casing the line first. -/
def evidenceDumpSearch (line : String) : Bool :=
  evidenceDumpSearchAux (pyLower line).data

/-- `[str(line).strip() for line in detail_lines if isinstance(line, str)
and str(line).strip()]` from the validator's detail-lines handling. -/
def normalizedDetailLines (lines : List PyVal) : List String :=
  lines.filterMap (fun line =>
    match line with
    | PyVal.str s => if (pyStrip s).isEmpty then Option.none else some (pyStrip s)
    | _ => Option.none)

/-- The detail-lines checks of one report (length cap and evidence-dump
heuristic).  The float comparison `evidence_like / len(normalized_lines)
>= 0.7` is modelled by the exact rational comparison `10 * evidence_like ≥
7 * len`; for the integer counts reachable here (`evidence_like ≤ len ≤
400`) the two agree, because a quotient of such integers is never within
one double ulp of 0.7 without being exactly 0.7. -/
def checkDetailLines (idx : Nat) (detailLines : List PyVal) : List String :=
  let normalized := normalizedDetailLines detailLines
  (if normalized.length > MAX_DETAIL_LINES_PER_REPORT then
    ["reports[" ++ toString idx ++ "].detail_lines has " ++
      toString normalized.length ++
      " lines; expected aggregated insights <= " ++
      toString MAX_DETAIL_LINES_PER_REPORT]
  else []) ++
  (if normalized.length ≥ 20 then
    let evidenceLike := (normalized.filter evidenceDumpSearch).length
    if 10 * evidenceLike ≥ 7 * normalized.length then
      ["reports[" ++ toString idx ++ "] looks like per-session evidence dump; " ++
        "aggregate into mechanism-level insights"]
    else []
  else [])

/-- The per-item body of the `reports` loop in
`validate_incremental_mechanism`.  `periodId` and `week` are the payload's
raw `period_id` and `week` values (used as fall-backs for the report key);
`seen` is the set of report keys already taken, in insertion order.
Returns the errors this item contributes and the updated key set. -/
def checkReportItem (periodId week : PyVal) (idx : Nat)
    (seen : List (String × String)) (item : PyVal) :
    List String × List (String × String) :=
  match item with
  | .dict _ =>
      let keyErrs := ["dimension", "layer", "title", "key_insights"].filterMap
        (fun key =>
          if ¬ isNonEmptyStrVal (item.get key) then
            some ("reports[" ++ toString idx ++ "]." ++ key ++ " must be non-empty string")
          else Option.none)
      let dimension := pyStrip (pyStrOr (item.get "dimension"))
      let layer := pyStrip (pyStrOr (item.get "layer"))
      let dimErrs :=
        if ¬ dimension.isEmpty ∧ ¬ is_supported_dimension dimension then
          ["reports[" ++ toString idx ++ "].dimension must be one of [" ++
            supportedDimensionsJoined ++ "]"]
        else []
      let layerErrs :=
        match dimensionLayerGet dimension with
        | some expected =>
            if ¬ dimension.isEmpty ∧ ¬ expected.isEmpty ∧ ¬ layer.isEmpty ∧
                layer ≠ expected then
              ["reports[" ++ toString idx ++ "].layer must be '" ++ expected ++
                "' for dimension '" ++ dimension ++ "'"]
            else []
        | Option.none => []
      let presenceErrs := ["period", "date"].filterMap
        (fun key =>
          let value := item.get key
          if ¬ value.isNone ∧ ¬ isNonEmptyStrVal value then
            some ("reports[" ++ toString idx ++ "]." ++ key ++
              " must be non-empty string when present")
          else Option.none)
      let periodKey := pyStrip (pyStrOf
        ((((item.get "period").orElse periodId).orElse week).orElse (.str "")))
      let dupState :=
        if ¬ dimension.isEmpty ∧ ¬ periodKey.isEmpty then
          if seen.contains (dimension, periodKey) then
            (["duplicate report key detected for dimension+period: " ++
              dimension ++ "+" ++ periodKey], seen)
          else ([], seen ++ [(dimension, periodKey)])
        else ([], seen)
      let convErrs :=
        let ca := item.get "conversations_analyzed"
        if ¬ ca.isNone ∧ (¬ ca.isInt ∨ ca.intVal < 0) then
          ["reports[" ++ toString idx ++
            "].conversations_analyzed must be non-negative integer when present"]
        else []
      let detailLines := item.get "detail_lines"
      let detailText := item.get "detail_text"
      let hasLines : Bool :=
        match detailLines with
        | .list ls => ls.any (fun line => isNonEmptyStrVal line)
        | _ => false
      let hasText : Bool := isNonEmptyStrVal detailText
      let requireErrs :=
        if ¬ hasLines ∧ ¬ hasText then
          ["reports[" ++ toString idx ++ "] requires detail_lines or detail_text"]
        else []
      let dumpErrs :=
        match detailLines with
        | .list ls => checkDetailLines idx ls
        | _ => []
      (keyErrs ++ dimErrs ++ layerErrs ++ presenceErrs ++ dupState.1 ++
        convErrs ++ requireErrs ++ dumpErrs, dupState.2)
  | _ => (["reports[" ++ toString idx ++ "] must be object"], seen)

/-- Fold of `checkReportItem` over an enumerated report list, threading the
seen-key set exactly as the Python loop does. -/
def checkReportsFrom (periodId week : PyVal) :
    Nat → List (String × String) → List PyVal → List String
  | _, _, [] => []
  | idx, seen, item :: rest =>
      let step := checkReportItem periodId week idx seen item
      step.1 ++ checkReportsFrom periodId week (idx + 1) step.2 rest

/-- The coverage checks of `validate_incremental_mechanism`. -/
def checkCoverage (coverage : PyVal) : List String :=
  match coverage with
  | .dict _ =>
      (["sessions_total", "sessions_with_mechanism"].filterMap
        (fun key =>
          let v := coverage.get key
          if ¬ v.isInt ∨ v.intVal < 0 then
            some ("coverage." ++ key ++ " must be non-negative integer")
          else Option.none)) ++
      (let sessionsTotal := coverage.get "sessions_total"
       let withMechanism := coverage.get "sessions_with_mechanism"
       if sessionsTotal.isInt ∧ withMechanism.isInt ∧
           withMechanism.intVal > sessionsTotal.intVal then
         ["coverage.sessions_with_mechanism cannot exceed coverage.sessions_total"]
       else [])
  | _ => ["coverage must be object"]

/-- Source: `diagnose_helper.validate_incremental_mechanism`.  Returns the
ordered list of human-readable error strings; the empty list means valid. -/
def validate_incremental_mechanism (payload : PyVal) : List String :=
  let periodId := payload.get "period_id"
  let week := payload.get "week"
  (if ¬ pyEqStr (payload.get "schema_version") INCREMENTAL_SCHEMA then
    ["schema_version must be '" ++ INCREMENTAL_SCHEMA ++ "'"]
  else []) ++
  (if isNonEmptyStrVal periodId then []
   else if isNonEmptyStrVal week then []
   else ["period_id or week must be provided"]) ++
  (let period := payload.get "period"
   if period.isNone then []
   else match period with
     | .dict _ =>
         ["since", "until"].filterMap (fun key =>
           if period.hasKey key ∧ ¬ isNonEmptyStrVal (period.get key) then
             some ("period." ++ key ++ " must be non-empty string when present")
           else Option.none)
     | _ => ["period must be object when present"]) ++
  (match payload.get "reports" with
   | .list items =>
       if items.isEmpty then ["reports must be non-empty list"]
       else checkReportsFrom periodId week 0 [] items
   | _ => ["reports must be non-empty list"]) ++
  checkCoverage (payload.get "coverage") ++
  (let whatHappened := payload.get "what_happened"
   if ¬ whatHappened.isNone ∧ ¬ whatHappened.isList then
     ["what_happened must be list when present"]
   else [])

end ConvInsights

namespace ConvInsights

/-! ## diagnose_helper.py — backfill selection (claim C8) -/

/-- Source: `diagnose_helper._has_valid_evidence_item`. -/
def has_valid_evidence_item (item : PyVal) : Bool :=
  let session_id := pyStrip (pyStrOr (item.get "session_id"))
  let snippet := pyStrip (pyStrOr (item.get "snippet"))
  let turn_id := item.get "turn_id"
  if session_id.isEmpty ∨ pyLower session_id = "n/a" ∨ pyLower session_id = "unknown" then
    false
  else if ¬ turn_id.isInt ∨ turn_id.intVal ≤ 0 then
    false
  else if snippet.isEmpty ∨ contains_placeholder snippet then
    false
  else
    true

/-- The `why` loop of `_session_has_mechanism_signal`: whether some `why`
entry has a usable hypothesis plus at least one valid evidence item. -/
def whyItemHasSignal (why : PyVal) : Bool :=
  match why with
  | .dict _ =>
      let hypothesis := pyStrip (pyStrOr (why.get "hypothesis"))
      if hypothesis.isEmpty ∨ contains_placeholder hypothesis then false
      else
        match (why.get "evidence").orElse (.list []) with
        | .list evs => evs.any (fun item =>
            match item with
            | PyVal.dict _ => has_valid_evidence_item item
            | _ => false)
        | _ => false
  | _ => false

/-- Source: `diagnose_helper._session_has_mechanism_signal`.  The `why`
value is iterated only when it is a list; its callers reach this function
only with payloads whose `why` passed the validator (a non-empty list), so
the non-list arm is unreachable there. -/
def session_has_mechanism_signal (session : PyVal) : Bool :=
  if (generated_by_block_reason (session.get "generated_by")).isSome then false
  else
    let summary := pyStrOr (session.get "summary")
    if contains_placeholder summary then false
    else
      match (session.get "why").orElse (.list []) with
      | .list items => items.any whyItemHasSignal
      | _ => false

/-- State of a session sidecar file on disk, as `_session_needs_backfill`
observes it: absent, present but not valid JSON, or decoded to a payload. -/
inductive SidecarState where
  | missing
  | unparseable
  | parsed (payload : PyVal)

/-- Source: `diagnose_helper._session_needs_backfill` (the filesystem reads
are reflected in the `SidecarState` argument). -/
def session_needs_backfill (forceRefresh : Bool) (state : SidecarState) : Bool :=
  if forceRefresh then true
  else
    match state with
    | .missing => true
    | .unparseable => true
    | .parsed payload =>
        if ¬ (validate_session_mechanism payload).isEmpty then true
        else if ¬ session_has_mechanism_signal payload then true
        else false

/-- Modelled from the claim's words, for comparison with the source: a
sidecar payload has the quality signal the claim describes when some `why`
entry carries a non-placeholder hypothesis with at least one evidence item
having a concrete session id, a positive turn id and a non-placeholder
snippet.  (This is the claim's notion of "not low-quality"; it omits the
summary-placeholder test the code also performs.) -/
def claimHasQualitySignal (payload : PyVal) : Bool :=
  match (payload.get "why").orElse (.list []) with
  | .list items => items.any whyItemHasSignal
  | _ => false

/-- Modelled from the claim's words: backfill selects a session exactly when
forced, or its sidecar is missing, unparseable, invalid, or lacks the
quality signal of `claimHasQualitySignal`. -/
def claimNeedsBackfill (forceRefresh : Bool) (state : SidecarState) : Bool :=
  forceRefresh ||
    match state with
    | .missing => true
    | .unparseable => true
    | .parsed payload =>
        ¬ (validate_session_mechanism payload).isEmpty ||
          ¬ claimHasQualitySignal payload

/-! ## diagnose_helper.py — generated_by defaulting in `_apply_session_results`
(claim C10) -/

/-- `d[key] = value` on a Python dict: replaces the binding in place when
the key exists (dicts keep insertion order and have unique keys), appends
otherwise. -/
def dictSet : List (String × PyVal) → String → PyVal → List (String × PyVal)
  | [], key, value => [(key, value)]
  | kv :: rest, key, value =>
      if kv.1 = key then (key, value) :: rest
      else kv :: dictSet rest key value

/-- `d.setdefault(key, value)`: inserts only when the key is absent. -/
def dictSetdefault : List (String × PyVal) → String → PyVal →
    List (String × PyVal)
  | [], key, value => [(key, value)]
  | kv :: rest, key, value =>
      if kv.1 = key then kv :: rest
      else kv :: dictSetdefault rest key value

/-- The `generated_by` defaulting block of
`diagnose_helper._apply_session_results`: ensure a dict is present, default
its five fields, and store it back. -/
def applyGeneratedByDefaults (runId nowIso : String)
    (record : List (String × PyVal)) : List (String × PyVal) :=
  let record := dictSetdefault record "generated_by" (.dict [])
  let generated_by :=
    match (PyVal.dict record).get "generated_by" with
    | .dict gbEntries => gbEntries
    | _ => []
  let generated_by := dictSetdefault generated_by "engine" (.str "api")
  let generated_by := dictSetdefault generated_by "provider" (.str "api")
  let generated_by := dictSetdefault generated_by "model" (.str "skill")
  let generated_by := dictSetdefault generated_by "run_id" (.str runId)
  let generated_by := dictSetdefault generated_by "generated_at" (.str nowIso)
  dictSet record "generated_by" (.dict generated_by)

/-- The week-derivation step of `_apply_session_results`:
`if not record.get("week") and isinstance(record.get("created_at"), str)`. -/
def applyWeekDefault (weekOf : String → String)
    (record : List (String × PyVal)) : List (String × PyVal) :=
  if ¬ ((PyVal.dict record).get "week").truthy ∧
      ((PyVal.dict record).get "created_at").isStr then
    dictSet record "week"
      (.str (weekOf (pyStrOf (((PyVal.dict record).get "created_at").orElse (.str "")))))
  else record

/-- The period-id derivation step of `_apply_session_results`:
`if not record.get("period_id") and record.get("week")`. -/
def applyPeriodDefault (record : List (String × PyVal)) :
    List (String × PyVal) :=
  if ¬ ((PyVal.dict record).get "period_id").truthy ∧
      ((PyVal.dict record).get "week").truthy then
    dictSet record "period_id" (.str (pyStrOf ((PyVal.dict record).get "week")))
  else record

/-- Source: the per-record defaulting block of
`diagnose_helper._apply_session_results` (lines building `record` and
`generated_by` before validation).  `weekOf` stands for
`_week_from_timestamp` (the `datetime`/ISO-calendar library call) and
`nowIso` for `_now_iso()`. -/
def applySessionDefaults (weekOf : String → String) (runId nowIso : String)
    (item : List (String × PyVal)) : List (String × PyVal) :=
  applyPeriodDefault (applyWeekDefault weekOf (applyGeneratedByDefaults
    runId nowIso (dictSetdefault item "schema_version" (.str SESSION_SCHEMA))))

/-- Source: the triage loop of `_apply_session_results`: records are
defaulted, validated, and the valid ones are kept (each is then persisted
as the session sidecar `data/insights/session/<session_id>.json`). -/
def applySessionResultsValid (weekOf : String → String) (runId nowIso : String)
    (items : List (List (String × PyVal))) : List PyVal :=
  (items.map (fun item => PyVal.dict (applySessionDefaults weekOf runId nowIso item))).filter
    (fun record => (validate_session_mechanism record).isEmpty)

end ConvInsights

namespace ConvInsights

/-! ## diagnose_helper.py — digest timeline selection (claim C4) -/

/-- `int(x)` for the values `_select_timeline_turns` coerces (`int(
turn.get("turn_id") or 0)`).  Ints and bools are exact; numeric strings
parse as Python would (non-numeric strings would raise in Python and are
unreachable on the inputs considered here); floats truncate toward zero. -/
def pyIntLoose : PyVal → Int
  | .int n => n
  | .bool b => if b then 1 else 0
  | .str s =>
      match (pyStrip s).data with
      | '-' :: rest =>
          if ¬ rest.isEmpty ∧ rest.all Char.isDigit then
            -(digitsToNat rest : Int)
          else 0
      | cs =>
          if ¬ cs.isEmpty ∧ cs.all Char.isDigit then (digitsToNat cs : Int)
          else 0
  | .float q => q.num / (q.den : Int)
  | _ => 0

/-- The effective turn id of one timeline turn:
`int(turn.get("turn_id") or 0)`. -/
def timelineTurnId (turn : PyVal) : Int :=
  pyIntLoose ((turn.get "turn_id").orElse (.int 0))

/-- The dedupe loop of `_select_timeline_turns`: only turns with a positive
turn id participate in deduplication; others are always kept. -/
def dedupeTimeline (seen : List Int) : List PyVal → List PyVal
  | [] => []
  | turn :: rest =>
      let tid := timelineTurnId turn
      if tid > 0 ∧ seen.contains tid then dedupeTimeline seen rest
      else if tid > 0 then turn :: dedupeTimeline (tid :: seen) rest
      else turn :: dedupeTimeline seen rest

/-- Source: `diagnose_helper._select_timeline_turns` with the default
`max_turns = 12` used by `build_session_digest`. -/
def select_timeline_turns (turns : List PyVal) : List PyVal :=
  if turns.length ≤ 12 then turns
  else
    let head := 6
    let tail := 6
    let selected := turns.take head ++ turns.drop (turns.length - tail)
    dedupeTimeline [] selected

/-- Modelled from the claim's words, for comparison with the source:
`turns[:6] + turns[-6:]` deduplicated by turn id keeping the first
occurrence, with every turn participating in deduplication. -/
def claimDedupeTimeline (seen : List Int) : List PyVal → List PyVal
  | [] => []
  | turn :: rest =>
      let tid := timelineTurnId turn
      if seen.contains tid then claimDedupeTimeline seen rest
      else turn :: claimDedupeTimeline (tid :: seen) rest

/-- Modelled from the claim's words: the timeline the claim describes. -/
def claimTimeline (turns : List PyVal) : List PyVal :=
  if turns.length ≤ 12 then turns
  else claimDedupeTimeline [] (turns.take 6 ++ turns.drop (turns.length - 6))

/-! ## diagnose_helper.py — period id (claim C3) -/

/-- Python truthiness of an `Optional[str]` (both `None` and `""` are falsy). -/
def optStrTruthy : Option String → Bool
  | some s => ¬ s.isEmpty
  | Option.none => false

/-- `x or default` on an `Optional[str]`. -/
def optStrOr (x : Option String) (dflt : String) : String :=
  match x with
  | some s => if s.isEmpty then dflt else s
  | Option.none => dflt

/-- Source: `diagnose_helper._parse_window_to_since`.  `isoOfDaysAgo d`
stands for `(datetime.now(timezone.utc) - timedelta(days=d)).date()
.isoformat()` (the clock is a parameter of the model).  Returns `.error`
where the Python code raises `ValueError`. -/
def parse_window_to_since (isoOfDaysAgo : Nat → String) (window : String) :
    Except String (Option String) :=
  let value := pyLower (pyStrip window)
  if value = "" ∨ value = "all" ∨ value = "all-time" then .ok Option.none
  else
    let body := String.mk value.data.dropLast
    if strEndsWith value "d" ∧ ¬ body.isEmpty ∧ body.data.all Char.isDigit then
      let days := digitsToNat body.data
      if days = 0 then .error "window days must be positive"
      else .ok (some (isoOfDaysAgo days))
    else .error "window must be like '30d' or 'all-time'"

/-- Source: `diagnose_helper._build_period_id`. -/
def build_period_id (since untilArg window explicitPeriodId : Option String) :
    String :=
  if optStrTruthy (explicitPeriodId.map pyStrip) then
    pyStrip (explicitPeriodId.getD "")
  else if optStrTruthy since ∨ optStrTruthy untilArg then
    optStrOr since "open" ++ "_to_" ++ optStrOr untilArg "today"
  else if optStrTruthy window then
    "rolling_" ++ window.getD ""
  else
    "rolling_30d"

/-- Source: the period-id computation at the top of
`diagnose_helper.cmd_incremental`: when neither `--since` nor `--until` is
given and `--window` is set, the window is first converted to a since date
(and `until` defaults to today's date) before `_build_period_id` runs.
`todayIso` stands for `datetime.now(timezone.utc).date().isoformat()`. -/
def cmd_incremental_period_id (isoOfDaysAgo : Nat → String) (todayIso : String)
    (periodIdArg sinceArg untilArg window : Option String) :
    Except String String :=
  let derive : Except String (Option String × Option String) :=
    if ¬ optStrTruthy sinceArg ∧ ¬ optStrTruthy untilArg ∧ optStrTruthy window then
      match parse_window_to_since isoOfDaysAgo (window.getD "") with
      | .error e => .error e
      | .ok parsed =>
          .ok (parsed, if parsed.isSome then some todayIso else untilArg)
    else .ok (sinceArg, untilArg)
  match derive with
  | .error e => .error e
  | .ok su =>
      if optStrTruthy periodIdArg then .ok (periodIdArg.getD "")
      else .ok (build_period_id su.1 su.2 window Option.none)

/-! ## diagnose_helper.py — sidecar write (claim C2) -/

/-- A filesystem mutation step, as observed by the sidecar-write claims. -/
inductive WriteOp where
  | mkdirParents (dir : List String)
  | writeText (path : List String) (contents : String)
  | rename (src dst : List String)
deriving DecidableEq, Repr

/-- Source: `diagnose_helper._write_json`: `path.parent.mkdir(parents=True,
exist_ok=True)` followed by a direct `path.write_text(...)` of the rendered
JSON.  Paths are lists of components; `rendered` stands for
`json.dumps(payload, ensure_ascii=False, indent=2, sort_keys=True)`. -/
def write_json_trace (path : List String) (rendered : String) : List WriteOp :=
  [.mkdirParents path.dropLast, .writeText path rendered]

/-- `data/insights/incremental` as path components. -/
def INSIGHTS_INCREMENTAL_DIR : List String := ["data", "insights", "incremental"]

/-- Source: the non-dry-run write step of `diagnose_helper.cmd_incremental`:
`_write_json(out_path, payload)` with `out_path = _INSIGHTS_INCREMENTAL_DIR /
f"{period_id}.json"`.  The current bytes of the sidecar (`existing`) are
never read on this path, which the unused argument records. -/
def cmd_incremental_sidecar_trace (_existing : Option String)
    (periodId rendered : String) : List WriteOp :=
  write_json_trace (INSIGHTS_INCREMENTAL_DIR ++ [periodId ++ ".json"]) rendered

/-- Modelled from the claim's words, for comparison with the source: write
the rendered bytes to a temp file in the same directory and rename it over
the sidecar, skipping everything when the bytes match the existing file. -/
def claimAtomicSidecarTrace (existing : Option String)
    (periodId rendered : String) : List WriteOp :=
  let path := INSIGHTS_INCREMENTAL_DIR ++ [periodId ++ ".json"]
  if existing = some rendered then []
  else
    [.writeText (INSIGHTS_INCREMENTAL_DIR ++ [periodId ++ ".json.tmp"]) rendered,
     .rename (INSIGHTS_INCREMENTAL_DIR ++ [periodId ++ ".json.tmp"]) path]

end ConvInsights

namespace ConvInsights

/-! ## _sync_analysis_reports_core.py — duplicate grouping and keeper
selection (claim C9) -/

/-- Source: `_sync_analysis_reports_core._contains_cjk`: any character in
U+4E00–U+9FFF. -/
def contains_cjk (text : String) : Bool :=
  text.data.any (fun c => 0x4e00 ≤ c.toNat ∧ c.toNat ≤ 0x9fff)

/-- A page of the external analysis-reports database, with its properties
already read the way `_build_report_index_and_duplicates` reads them:
`dimension`/`period` via `_select_name`, `title` via `_title_text`,
`keyInsights` via `_rich_text_text`, and the raw id and timestamps
(missing values read as the empty string). -/
structure NotionPage where
  id : String
  dimension : String
  period : String
  title : String
  keyInsights : String
  lastEditedTime : String
  createdTime : String
deriving DecidableEq, Repr

/-- Source: `_sync_analysis_reports_core._page_sort_key`:
`str(page.get("last_edited_time") or page.get("created_time") or "")`. -/
def page_sort_key (page : NotionPage) : String :=
  if ¬ page.lastEditedTime.isEmpty then page.lastEditedTime
  else if ¬ page.createdTime.isEmpty then page.createdTime
  else ""

/-- The per-group item built inside `_build_report_index_and_duplicates`. -/
structure ReportPageItem where
  id : String
  title : String
  keyInsights : String
  sortKey : String
  isZh : Bool
deriving DecidableEq, Repr

/-- The item record built for one page:
`is_zh = _contains_cjk(title) or _contains_cjk(insights)`. -/
def mkReportPageItem (page : NotionPage) : ReportPageItem :=
  { id := pyStrip page.id
    title := page.title
    keyInsights := page.keyInsights
    sortKey := page_sort_key page
    isZh := contains_cjk page.title || contains_cjk page.keyInsights }

/-- Append `item` to the group of `key`, creating the group at the end when
absent — `grouped.setdefault(key, []).append(item)` on an insertion-ordered
dict. -/
def groupInsert (key : String × String) (item : ReportPageItem) :
    List ((String × String) × List ReportPageItem) →
    List ((String × String) × List ReportPageItem)
  | [] => [(key, [item])]
  | g :: rest =>
      if g.1 = key then (g.1, g.2 ++ [item]) :: rest
      else g :: groupInsert key item rest

/-- The grouping loop of `_build_report_index_and_duplicates`: pages whose
dimension or period is empty, or whose stripped id is empty, are skipped. -/
def groupPages (pages : List NotionPage) :
    List ((String × String) × List ReportPageItem) :=
  pages.foldl
    (fun grouped page =>
      let key := (page.dimension, page.period)
      if key.1.isEmpty ∨ key.2.isEmpty then grouped
      else
        let item := mkReportPageItem page
        if item.id.isEmpty then grouped
        else groupInsert key item grouped)
    []

/-- `sorted(pool, key=..., reverse=True)[0]`: Python's sort is stable and
`reverse=True` keeps the original order among equal keys, so the selected
element is the earliest item with the maximal sort key. -/
def keeperOfPool (first : ReportPageItem) (rest : List ReportPageItem) :
    ReportPageItem :=
  rest.foldl (fun best x => if strLt best.sortKey x.sortKey then x else best) first

/-- The keeper of one group: prefer the CJK-bearing subset when non-empty,
then take the latest sort key. -/
def keeperOfGroup (items : List ReportPageItem) : Option ReportPageItem :=
  let zhItems := items.filter (fun item => item.isZh)
  let pool := if ¬ zhItems.isEmpty then zhItems else items
  match pool with
  | [] => Option.none
  | first :: rest => some (keeperOfPool first rest)

/-- One recorded duplicate action (`reason` is always `duplicate_key`). -/
structure DuplicateAction where
  pageId : String
  key : String
  title : String
deriving DecidableEq, Repr

/-- The duplicates recorded for one group: every item whose id differs from
the keeper's. -/
def groupDuplicates (key : String × String) (items : List ReportPageItem)
    (keeper : ReportPageItem) : List DuplicateAction :=
  items.filterMap (fun item =>
    if ¬ item.id.isEmpty ∧ item.id ≠ keeper.id then
      some { pageId := item.id, key := key.1 ++ "|" ++ key.2, title := item.title }
    else Option.none)

/-- Source: `_sync_analysis_reports_core._build_report_index_and_duplicates`:
group pages by (dimension, period), pick a keeper per group, index the
keeper and record every other page as a duplicate. -/
def build_report_index_and_duplicates (pages : List NotionPage) :
    List ((String × String) × String) × List DuplicateAction :=
  (groupPages pages).foldl
    (fun acc g =>
      match keeperOfGroup g.2 with
      | some keeper =>
          (acc.1 ++ [(g.1, keeper.id)], acc.2 ++ groupDuplicates g.1 g.2 keeper)
      | Option.none => acc)
    ([], [])

/-- Source: the write phase of
`_sync_analysis_reports_core.sync_reports_from_incremental` after the index
and duplicates are built: archive every duplicate (`archOk` reflects
whether `client.archive_page` succeeds for a page id), abort with exit code
1 before any report write when an archival failed, otherwise attempt every
report write and exit 0 only when all succeed.  Returns the exit code and
the number of report writes attempted. -/
def sync_after_index {α : Type} (duplicates : List DuplicateAction)
    (archOk : String → Bool) (reports : List α) (writeOk : α → Bool) :
    Nat × Nat :=
  let failed := (duplicates.filter (fun d => ¬ archOk d.pageId)).length
  if ¬ duplicates.isEmpty ∧ failed > 0 then (1, 0)
  else
    let written := (reports.filter writeOk).length
    (if written = reports.length then 0 else 1, reports.length)

end ConvInsights

namespace ConvInsights

/-! ## Exception-aware validator embeddings (claim C7)

The validators are re-embedded in `Except String`, instrumenting the
operations that can raise in Python on a decoded JSON payload: attribute
access `.get` on a non-dict receiver (`AttributeError`), division
(`ZeroDivisionError`), and the hashing of `tier` performed by the
set-membership test of `_validate_evidence` — a raising `TypeError` when
`tier` is a list or dict, which are unhashable.  Every other
potentially-raising Python operation in the two validators is
syntactically guarded by an `isinstance` short-circuit, which the pure
embedding's pattern matches already reflect. -/

/-- `x.get(key)` with the `AttributeError` a non-dict receiver raises. -/
def pyGetE (v : PyVal) (key : String) : Except String PyVal :=
  match v with
  | .dict _ => .ok (v.get key)
  | _ => .error ("AttributeError: get " ++ key)

/-- `a / b` on non-negative integers with Python's `ZeroDivisionError`. -/
def pyDivE (a b : Nat) : Except String ℚ :=
  if b = 0 then .error "ZeroDivisionError" else .ok ((a : ℚ) / (b : ℚ))

/-- Exception-aware `checkDetailLines`: the ratio test performs the
division the Python code performs. -/
def checkDetailLinesE (idx : Nat) (detailLines : List PyVal) :
    Except String (List String) := do
  let normalized := normalizedDetailLines detailLines
  let lenErrs :=
    if normalized.length > MAX_DETAIL_LINES_PER_REPORT then
      ["reports[" ++ toString idx ++ "].detail_lines has " ++
        toString normalized.length ++
        " lines; expected aggregated insights <= " ++
        toString MAX_DETAIL_LINES_PER_REPORT]
    else []
  let dumpErrs ←
    if normalized.length ≥ 20 then do
      let evidenceLike := (normalized.filter evidenceDumpSearch).length
      let ratio ← pyDivE evidenceLike normalized.length
      pure (if (7 : ℚ) / 10 ≤ ratio then
        ["reports[" ++ toString idx ++ "] looks like per-session evidence dump; " ++
          "aggregate into mechanism-level insights"]
      else [])
    else pure []
  pure (lenErrs ++ dumpErrs)

/-- Exception-aware `checkReportItem`. -/
def checkReportItemE (periodId week : PyVal) (idx : Nat)
    (seen : List (String × String)) (item : PyVal) :
    Except String (List String × List (String × String)) :=
  match item with
  | .dict _ => do
      let keyErrs := ["dimension", "layer", "title", "key_insights"].filterMap
        (fun key =>
          if ¬ isNonEmptyStrVal (item.get key) then
            some ("reports[" ++ toString idx ++ "]." ++ key ++ " must be non-empty string")
          else Option.none)
      let dimension := pyStrip (pyStrOr (item.get "dimension"))
      let layer := pyStrip (pyStrOr (item.get "layer"))
      let dimErrs :=
        if ¬ dimension.isEmpty ∧ ¬ is_supported_dimension dimension then
          ["reports[" ++ toString idx ++ "].dimension must be one of [" ++
            supportedDimensionsJoined ++ "]"]
        else []
      let layerErrs :=
        match dimensionLayerGet dimension with
        | some expected =>
            if ¬ dimension.isEmpty ∧ ¬ expected.isEmpty ∧ ¬ layer.isEmpty ∧
                layer ≠ expected then
              ["reports[" ++ toString idx ++ "].layer must be '" ++ expected ++
                "' for dimension '" ++ dimension ++ "'"]
            else []
        | Option.none => []
      let presenceErrs := ["period", "date"].filterMap
        (fun key =>
          let value := item.get key
          if ¬ value.isNone ∧ ¬ isNonEmptyStrVal value then
            some ("reports[" ++ toString idx ++ "]." ++ key ++
              " must be non-empty string when present")
          else Option.none)
      let periodKey := pyStrip (pyStrOf
        ((((item.get "period").orElse periodId).orElse week).orElse (.str "")))
      let dupState :=
        if ¬ dimension.isEmpty ∧ ¬ periodKey.isEmpty then
          if seen.contains (dimension, periodKey) then
            (["duplicate report key detected for dimension+period: " ++
              dimension ++ "+" ++ periodKey], seen)
          else ([], seen ++ [(dimension, periodKey)])
        else ([], seen)
      let convErrs :=
        let ca := item.get "conversations_analyzed"
        if ¬ ca.isNone ∧ (¬ ca.isInt ∨ ca.intVal < 0) then
          ["reports[" ++ toString idx ++
            "].conversations_analyzed must be non-negative integer when present"]
        else []
      let detailLines := item.get "detail_lines"
      let detailText := item.get "detail_text"
      let hasLines : Bool :=
        match detailLines with
        | .list ls => ls.any (fun line => isNonEmptyStrVal line)
        | _ => false
      let hasText : Bool := isNonEmptyStrVal detailText
      let requireErrs :=
        if ¬ hasLines ∧ ¬ hasText then
          ["reports[" ++ toString idx ++ "] requires detail_lines or detail_text"]
        else []
      let dumpErrs ←
        match detailLines with
        | .list ls => checkDetailLinesE idx ls
        | _ => pure []
      pure (keyErrs ++ dimErrs ++ layerErrs ++ presenceErrs ++ dupState.1 ++
        convErrs ++ requireErrs ++ dumpErrs, dupState.2)
  | _ => pure (["reports[" ++ toString idx ++ "] must be object"], seen)

/-- Exception-aware `checkReportsFrom`. -/
def checkReportsFromE (periodId week : PyVal) :
    Nat → List (String × String) → List PyVal → Except String (List String)
  | _, _, [] => pure []
  | idx, seen, item :: rest => do
      let step ← checkReportItemE periodId week idx seen item
      let restErrs ← checkReportsFromE periodId week (idx + 1) step.2 rest
      pure (step.1 ++ restErrs)

/-- `hash(x)` as evaluated on the left operand of the set-membership test
in `_validate_evidence`: a decoded list or dict is unhashable and raises
`TypeError`; every other decoded JSON value (`None`, bool, int, float,
str) is hashable. -/
def pyHashE : PyVal → Except String Unit
  | .list _ => .error "TypeError: unhashable type: 'list'"
  | .dict _ => .error "TypeError: unhashable type: 'dict'"
  | _ => .ok ()

/-- Exception-aware `_validate_evidence`: after the `tier is not None`
short-circuit, the membership test hashes `tier` and therefore raises on a
list- or dict-valued tier. -/
def validate_evidenceE (evidence : PyVal) (index : Nat) :
    Except String (List String) := do
  let session_id := evidence.get "session_id"
  let turn_id := evidence.get "turn_id"
  let snippet := evidence.get "snippet"
  let tier := evidence.get "tier"
  let tierErrs ←
    if tier.isNone then pure []
    else do
      let _ ← pyHashE tier
      pure (if ¬ pyEqStr tier "primary" ∧ ¬ pyEqStr tier "supporting" then
        ["evidence[" ++ toString index ++ "].tier must be 'primary' or 'supporting' when present"]
      else [])
  pure (
    (if ¬ isNonEmptyStrVal session_id then
      ["evidence[" ++ toString index ++ "].session_id must be non-empty string"]
    else []) ++
    (if ¬ turn_id.isInt || turn_id.intVal ≤ 0 then
      ["evidence[" ++ toString index ++ "].turn_id must be positive integer"]
    else []) ++
    (if ¬ isNonEmptyStrVal snippet then
      ["evidence[" ++ toString index ++ "].snippet must be non-empty string"]
    else []) ++
    tierErrs)

/-- Exception-aware evidence loop of one `why` item: `idx` is the why
index, the pairs are `enumerate(evidence)`. -/
def checkEvidenceListE (idx : Nat) :
    List (Nat × PyVal) → Except String (List String)
  | [] => pure []
  | p :: rest => do
      let errs ←
        match p.2 with
        | PyVal.dict _ => validate_evidenceE p.2 p.1
        | _ => pure ["why[" ++ toString idx ++ "].evidence[" ++
            toString p.1 ++ "] must be object"]
      let restErrs ← checkEvidenceListE idx rest
      pure (errs ++ restErrs)

/-- Exception-aware `checkWhyItem`. -/
def checkWhyItemE (idx : Nat) (item : PyVal) : Except String (List String) :=
  match item with
  | .dict _ => do
      let evErrs ←
        match item.get "evidence" with
        | .list evs =>
            if evs.isEmpty then
              pure ["why[" ++ toString idx ++ "].evidence must be non-empty list"]
            else checkEvidenceListE idx evs.enum
        | _ => pure ["why[" ++ toString idx ++ "].evidence must be non-empty list"]
      pure (
        (if ¬ isNonEmptyStrVal (item.get "hypothesis") then
          ["why[" ++ toString idx ++ "].hypothesis must be non-empty string"]
        else []) ++
        (let confidence := item.get "confidence"
         if ¬ confidence.isNone ∧ ¬ confidence.isNum then
          ["why[" ++ toString idx ++ "].confidence must be number when present"]
        else []) ++
        evErrs)
  | _ => pure ["why[" ++ toString idx ++ "] must be object"]

/-- Exception-aware `why` loop over `enumerate(why)`. -/
def checkWhyListE : List (Nat × PyVal) → Except String (List String)
  | [] => pure []
  | p :: rest => do
      let errs ← checkWhyItemE p.1 p.2
      let restErrs ← checkWhyListE rest
      pure (errs ++ restErrs)

/-- Whether a decoded JSON value is hashable: everything except lists and
dicts. -/
def tierHashable : PyVal → Bool
  | .list _ => false
  | .dict _ => false
  | _ => true

/-- Whether one evidence entry of the why loop cannot make the tier
membership test raise: a non-dict entry never reaches it, and a dict entry
is safe when its `tier` is hashable (an absent tier reads as `None`, which
is hashable and also short-circuits the test). -/
def evTierHashable (ev : PyVal) : Bool :=
  match ev with
  | .dict _ => tierHashable (ev.get "tier")
  | _ => true

/-- Whether one `why` item reaches no unhashable tier. -/
def whyItemTierSafe (item : PyVal) : Bool :=
  match item with
  | .dict _ =>
      (match item.get "evidence" with
       | PyVal.list evs => evs.all evTierHashable
       | _ => true)
  | _ => true

/-- Whether the session validator's `why` loop reaches no unhashable
`tier` on this payload: under this condition the tier membership test —
the one raising operation inside the validator's body on a dict payload —
cannot fire. -/
def whyTiersHashable (payload : PyVal) : Bool :=
  match payload.get "why" with
  | .list items => items.all whyItemTierSafe
  | _ => true

/-- Exception-aware `validate_session_mechanism`: the top-level field reads
go through `pyGetE` (they raise on a non-dict payload, as Python would),
and the `why` loop goes through `checkWhyListE`, whose tier membership
test raises `TypeError` on an unhashable tier. -/
def validate_session_mechanismE (payload : PyVal) :
    Except String (List String) := do
  let schemaVersion ← pyGetE payload "schema_version"
  let sessionId ← pyGetE payload "session_id"
  let createdAt ← pyGetE payload "created_at"
  let week ← pyGetE payload "week"
  let periodId ← pyGetE payload "period_id"
  let whatHappened ← pyGetE payload "what_happened"
  let why ← pyGetE payload "why"
  let actions ← pyGetE payload "how_to_improve"
  let labels ← pyGetE payload "labels"
  let summary ← pyGetE payload "summary"
  let generatedBy ← pyGetE payload "generated_by"
  let whyErrs ←
    match why with
    | .list items =>
        if items.isEmpty then pure ["why must be non-empty list"]
        else checkWhyListE items.enum
    | _ => pure ["why must be non-empty list"]
  pure (
    (if ¬ pyEqStr schemaVersion SESSION_SCHEMA then
      ["schema_version must be '" ++ SESSION_SCHEMA ++ "'"]
    else []) ++
    (if ¬ isNonEmptyStrVal sessionId then
      ["session_id must be non-empty string"] else []) ++
    (if ¬ isNonEmptyStrVal createdAt then
      ["created_at must be non-empty string"] else []) ++
    (if ¬ week.isNone ∧ ¬ isNonEmptyStrVal week then
      ["week must be non-empty string when present"] else []) ++
    (if ¬ periodId.isNone ∧ ¬ isNonEmptyStrVal periodId then
      ["period_id must be non-empty string when present"] else []) ++
    (match whatHappened with
     | .list xs => if xs.isEmpty then ["what_happened must be non-empty list"] else []
     | _ => ["what_happened must be non-empty list"]) ++
    whyErrs ++
    (match actions with
     | .list acts =>
         if acts.isEmpty then ["how_to_improve must be non-empty list"]
         else (acts.enum.map (fun p => checkActionItem p.1 p.2)).flatten
     | _ => ["how_to_improve must be non-empty list"]) ++
    (if ¬ labels.isNone ∧ ¬ labels.isList then
      ["labels must be list when present"] else []) ++
    (if ¬ isNonEmptyStrVal summary then
      ["summary must be non-empty string"] else []) ++
    checkGeneratedBy generatedBy)

/-- Exception-aware `validate_incremental_mechanism`. -/
def validate_incremental_mechanismE (payload : PyVal) :
    Except String (List String) := do
  let periodId ← pyGetE payload "period_id"
  let week ← pyGetE payload "week"
  let schemaVersion ← pyGetE payload "schema_version"
  let period ← pyGetE payload "period"
  let reports ← pyGetE payload "reports"
  let coverage ← pyGetE payload "coverage"
  let whatHappened ← pyGetE payload "what_happened"
  let reportErrs ←
    match reports with
    | .list items =>
        if items.isEmpty then pure ["reports must be non-empty list"]
        else checkReportsFromE periodId week 0 [] items
    | _ => pure ["reports must be non-empty list"]
  pure (
    (if ¬ pyEqStr schemaVersion INCREMENTAL_SCHEMA then
      ["schema_version must be '" ++ INCREMENTAL_SCHEMA ++ "'"]
    else []) ++
    (if isNonEmptyStrVal periodId then []
     else if isNonEmptyStrVal week then []
     else ["period_id or week must be provided"]) ++
    (if period.isNone then []
     else match period with
       | .dict _ =>
           ["since", "until"].filterMap (fun key =>
             if period.hasKey key ∧ ¬ isNonEmptyStrVal (period.get key) then
               some ("period." ++ key ++ " must be non-empty string when present")
             else Option.none)
       | _ => ["period must be object when present"]) ++
    reportErrs ++
    checkCoverage coverage ++
    (if ¬ whatHappened.isNone ∧ ¬ whatHappened.isList then
      ["what_happened must be list when present"]
    else []))

/-- Whether a filesystem step is a rename. -/
def WriteOp.isRenameOp : WriteOp → Bool
  | .rename _ _ => true
  | _ => false

/-- Entries of a concrete session payload whose evidence carries the
hashable tier `primary` (exercising the tier membership test without
raising). -/
def c7SessionEntries : List (String × PyVal) :=
  [("why", .list [.dict
    [("hypothesis", .str "Opening context was thin."),
     ("evidence", .list [.dict
       [("session_id", .str "s-1"),
        ("turn_id", .int 2),
        ("snippet", .str "Please debug this"),
        ("tier", .str "primary")]])]])]

/-- Entries of a concrete incremental payload with a reports list. -/
def c7IncrementalEntries : List (String × PyVal) :=
  [("schema_version", .str "incremental-mechanism.v1"),
   ("period_id", .str "2026-W06"),
   ("reports", .list [.dict
     [("dimension", .str "incremental-task-stratification"),
      ("layer", .str "L2"),
      ("title", .str "t"),
      ("key_insights", .str "k"),
      ("detail_text", .str "d")]])]

/-- A concrete session sidecar payload: valid under
`validate_session_mechanism`, carrying a usable hypothesis with concrete
evidence, but with a placeholder summary (`tbd`). -/
def lowQualitySummaryPayload : PyVal :=
  .dict
    [("schema_version", .str "session-mechanism.v1"),
     ("session_id", .str "s-1"),
     ("created_at", .str "2026-02-06T12:00:00+00:00"),
     ("what_happened", .list [.str "User debugged an API issue."]),
     ("why", .list
       [.dict
         [("hypothesis", .str "Opening context was too thin."),
          ("evidence", .list
            [.dict
              [("session_id", .str "s-1"),
               ("turn_id", .int 1),
               ("snippet", .str "Please debug this API issue")]])]]),
     ("how_to_improve", .list
       [.dict
         [("trigger", .str "New debugging session starts"),
          ("action", .str "State goal and constraints up front"),
          ("expected_gain", .str "Fewer clarification loops"),
          ("validation_window", .str "next 10 sessions")]]),
     ("summary", .str "tbd"),
     ("generated_by", .dict
       [("engine", .str "api"),
        ("provider", .str "api"),
        ("model", .str "skill"),
        ("run_id", .str "run-1"),
        ("generated_at", .str "2026-02-06T12:00:00+00:00")])]

end ConvInsights

namespace ConvInsights

/-- A CJK-titled analysis-report page (used as a concrete witness input). -/
def zhReportPage : NotionPage :=
  { id := "page-zh"
    dimension := "incremental-root-causes"
    period := "rolling_30d"
    title := "增量根因假设 - rolling_30d"
    keyInsights := "开场上下文不足导致澄清循环。"
    lastEditedTime := "2026-02-01T08:00:00.000Z"
    createdTime := "2026-01-20T08:00:00.000Z" }

/-- An English-titled duplicate of the same (dimension, period), edited
more recently than the CJK page. -/
def enReportPage : NotionPage :=
  { id := "page-en"
    dimension := "incremental-root-causes"
    period := "rolling_30d"
    title := "Incremental Root Causes - rolling_30d"
    keyInsights := "Thin opening context causes clarification loops."
    lastEditedTime := "2026-02-05T08:00:00.000Z"
    createdTime := "2026-01-25T08:00:00.000Z" }

end ConvInsights

namespace ConvInsights

/-! ## Theorems

### Retry loop lemmas -/

theorem retryFrom_of_ok {α : Type} (retryable : String → Bool) (m : Nat)
    (outcomes : Nat → Except String α) (a : Nat) (v : α)
    (h : outcomes a = .ok v) :
    retryFrom retryable m outcomes a = ⟨.ok v, a + 1, []⟩ := by
  rw [retryFrom]
  simp [h]

theorem retryFrom_of_stop {α : Type} (retryable : String → Bool) (m : Nat)
    (outcomes : Nat → Except String α) (a : Nat) (e : String)
    (h : outcomes a = .error e) (hstop : m ≤ a ∨ retryable e = false) :
    retryFrom retryable m outcomes a = ⟨.error e, a + 1, []⟩ := by
  have hc : m ≤ a ∨ ¬ retryable e = true := by
    rcases hstop with h' | h'
    · exact Or.inl h'
    · exact Or.inr (by simp [h'])
  rw [retryFrom]
  simp only [h]
  rw [dif_pos hc]

theorem retryFrom_of_retry {α : Type} (retryable : String → Bool) (m : Nat)
    (outcomes : Nat → Except String α) (a : Nat) (e : String)
    (h : outcomes a = .error e) (hlt : a < m) (hr : retryable e = true) :
    retryFrom retryable m outcomes a =
      ⟨(retryFrom retryable m outcomes (a + 1)).result,
       (retryFrom retryable m outcomes (a + 1)).attempts,
       min (2 ^ a) 4 :: (retryFrom retryable m outcomes (a + 1)).sleeps⟩ := by
  have hc : ¬ (m ≤ a ∨ ¬ retryable e = true) := by
    simp [hr]
    omega
  rw [retryFrom]
  simp only [h]
  rw [dif_neg hc]

theorem retryFrom_bounds {α : Type} (retryable : String → Bool) (m : Nat)
    (outcomes : Nat → Except String α) :
    ∀ k a, m ≤ a + k → a ≤ m →
      (retryFrom retryable m outcomes a).attempts ≤ m + 1 ∧
        ∀ d ∈ (retryFrom retryable m outcomes a).sleeps, d ≤ 4 := by
  intro k
  induction k with
  | zero =>
      intro a ha haa
      cases h : outcomes a with
      | ok v =>
          rw [retryFrom_of_ok retryable m outcomes a v h]
          refine ⟨by simp; omega, ?_⟩
          intro d hd; simp at hd
      | error e =>
          rw [retryFrom_of_stop retryable m outcomes a e h (Or.inl (by omega))]
          refine ⟨by simp; omega, ?_⟩
          intro d hd; simp at hd
  | succ k ih =>
      intro a ha haa
      cases h : outcomes a with
      | ok v =>
          rw [retryFrom_of_ok retryable m outcomes a v h]
          refine ⟨by simp; omega, ?_⟩
          intro d hd; simp at hd
      | error e =>
          by_cases hstop : m ≤ a ∨ retryable e = false
          · rw [retryFrom_of_stop retryable m outcomes a e h hstop]
            refine ⟨by simp; omega, ?_⟩
            intro d hd; simp at hd
          · have hm : a < m := by
              by_contra hc
              exact hstop (Or.inl (by omega))
            have hr : retryable e = true := by
              cases hre : retryable e
              · exact absurd (Or.inr hre) hstop
              · rfl
            rw [retryFrom_of_retry retryable m outcomes a e h hm hr]
            have hrec := ih (a + 1) (by omega) (by omega)
            refine ⟨hrec.1, ?_⟩
            intro d hd
            simp only [List.mem_cons] at hd
            rcases hd with hd | hd
            · calc d = min (2 ^ a) 4 := hd
                _ ≤ 4 := min_le_right _ _
            · exact hrec.2 d hd

end ConvInsights

namespace ConvInsights

/-- C1 counterexample: the claim's retry policy fails on the code in two
places.  `_is_retryable_claude_error` does not treat `rate limit` as a
retryable marker, so a claude_cli rate-limit error propagates after a
single attempt; and the openai/anthropic session path of `run_api` performs
exactly one attempt even for a `timed out` error, with no retry at all. -/
theorem claim_C1_counterexample :
    is_retryable_claude_error "rate limit" = false
    ∧ infer_claude_with_retries
        (fun k => if k = 0 then (Except.error "HTTP 429: rate limit" : Except String Nat) else .ok 7)
        = ⟨.error "HTTP 429: rate limit", 1, []⟩
    ∧ run_api_remote_session
        (fun k => if k = 0 then (Except.error "Network error: timed out" : Except String Nat) else .ok 7)
        = ⟨.error "Network error: timed out", 1, []⟩ := by
  refine ⟨by decide, ?_, rfl⟩
  rw [infer_claude_with_retries,
    retryFrom_of_stop _ _ _ 0 "HTTP 429: rate limit" rfl (Or.inr (by decide))]

/-- C1 amended: only the claude_cli and codex_cli providers wrap Skill
inference calls in up to 2 retries (3 total attempts) with back-off
`min(2 ** attempt, 4)` seconds (so capped at 4 s); a retry happens only
when the error string matches the provider's retryable markers — `timed
out`, `failed rc=1`, `no json object found` for claude_cli, those three
plus `rate limit` for codex_cli — and any other error propagates
immediately after one attempt.  The openai/anthropic session calls of
`run_api` are issued exactly once, with no retry. -/
theorem claim_C1_retry_policy {α : Type} (outcomes : Nat → Except String α) :
    ((infer_claude_with_retries outcomes).attempts ≤ 3
      ∧ ∀ d ∈ (infer_claude_with_retries outcomes).sleeps, d ≤ 4)
    ∧ ((infer_codex_with_retries outcomes).attempts ≤ 3
      ∧ ∀ d ∈ (infer_codex_with_retries outcomes).sleeps, d ≤ 4)
    ∧ (∀ e, outcomes 0 = .error e → is_retryable_claude_error e = false →
        infer_claude_with_retries outcomes = ⟨.error e, 1, []⟩)
    ∧ (∀ e v, outcomes 0 = .error e → is_retryable_claude_error e = true →
        outcomes 1 = .ok v → infer_claude_with_retries outcomes = ⟨.ok v, 2, [1]⟩)
    ∧ (∀ e, outcomes 0 = .error e → is_retryable_codex_error e = false →
        infer_codex_with_retries outcomes = ⟨.error e, 1, []⟩)
    ∧ (∀ e v, outcomes 0 = .error e → is_retryable_codex_error e = true →
        outcomes 1 = .ok v → infer_codex_with_retries outcomes = ⟨.ok v, 2, [1]⟩)
    ∧ (∀ e, strContains (pyLower e) "rate limit" = true →
        is_retryable_codex_error e = true)
    ∧ run_api_remote_session outcomes = ⟨outcomes 0, 1, []⟩ := by
  refine ⟨?_, ?_, ?_, ?_, ?_, ?_, ?_, rfl⟩
  · exact retryFrom_bounds is_retryable_claude_error 2 outcomes 2 0 (by omega) (by omega)
  · exact retryFrom_bounds is_retryable_codex_error 2 outcomes 2 0 (by omega) (by omega)
  · intro e h0 hr
    rw [infer_claude_with_retries, retryFrom_of_stop _ _ _ 0 e h0 (Or.inr hr)]
  · intro e v h0 hr h1
    rw [infer_claude_with_retries, retryFrom_of_retry _ _ _ 0 e h0 (by omega) hr,
      retryFrom_of_ok _ _ _ 1 v h1]
    simp
  · intro e h0 hr
    rw [infer_codex_with_retries, retryFrom_of_stop _ _ _ 0 e h0 (Or.inr hr)]
  · intro e v h0 hr h1
    rw [infer_codex_with_retries, retryFrom_of_retry _ _ _ 0 e h0 (by omega) hr,
      retryFrom_of_ok _ _ _ 1 v h1]
    simp
  · intro e h
    simp [is_retryable_codex_error, h]

/-- C1 witness: a codex_cli call that hits a rate limit once and then
succeeds returns the success on the second attempt after a 1 s sleep. -/
theorem claim_C1_retry_policy_witness :
    infer_codex_with_retries
      (fun k => if k = 0 then (Except.error "rate limit hit" : Except String Nat) else .ok 7)
      = ⟨.ok 7, 2, [1]⟩ :=
  (claim_C1_retry_policy
    (fun k => if k = 0 then (Except.error "rate limit hit" : Except String Nat) else .ok 7)).2.2.2.2.2.1
    "rate limit hit" 7 rfl (by decide) rfl

end ConvInsights

namespace ConvInsights

/-! ### Chunking lemmas (C5) -/

theorem chunksJoin {α : Type} (k : Nat) :
    ∀ (n : Nat) (l : List α), l.length ≤ n * k →
      ((List.range n).map (fun i => (l.drop (i * k)).take k)).flatten = l := by
  intro n
  induction n with
  | zero =>
      intro l hl
      simp at hl
      simp [hl]
  | succ n ih =>
      intro l hl
      rw [List.range_succ_eq_map]
      simp only [List.map_cons, List.map_map, List.flatten_cons]
      have h0 : (l.drop (0 * k)).take k = l.take k := by simp
      have hrest :
          (List.map ((fun i => (l.drop (i * k)).take k) ∘ (· + 1)) (List.range n)).flatten
            = l.drop k := by
        have hmap :
            List.map ((fun i => (l.drop (i * k)).take k) ∘ (· + 1)) (List.range n)
              = List.map (fun i => ((l.drop k).drop (i * k)).take k) (List.range n) := by
          apply List.map_congr_left
          intro i _
          simp only [Function.comp_apply]
          rw [List.drop_drop]
          congr 1
          ring
        rw [hmap]
        apply ih
        have hlen := l.length_drop k
        have hsucc : (n + 1) * k = n * k + k := by ring
        omega
      rw [h0, hrest, List.take_append_drop]

end ConvInsights

namespace ConvInsights

/-- C5: `run_incremental_api` makes a single inference call when there are
at most 24 sessions; with more it splits the sessions into contiguous
chunks of at most 24 (25 sessions give 2 chunks), runs one call per chunk,
and finishes with one aggregation call whose input has `sessions = []` and
one `chunk_reports` entry per chunk. -/
theorem claim_C5_incremental_chunking {α : Type} (sessions : List α) :
    (sessions.length ≤ 24 → run_incremental_api_plan sessions = .single sessions)
    ∧ (24 < sessions.length →
        ∃ chunks : List (List α),
          run_incremental_api_plan sessions = .chunked chunks [] chunks.length
          ∧ chunks.flatten = sessions
          ∧ (∀ c ∈ chunks, c.length ≤ 24)
          ∧ chunks.length = (sessions.length + 23) / 24) := by
  constructor
  · intro hle
    have hle' : sessions.length ≤ INCREMENTAL_CHUNK_SIZE := by
      simpa [INCREMENTAL_CHUNK_SIZE] using hle
    rw [run_incremental_api_plan, if_pos hle']
  · intro hgt
    have hnle : ¬ sessions.length ≤ INCREMENTAL_CHUNK_SIZE := by
      simp [INCREMENTAL_CHUNK_SIZE]
      omega
    refine ⟨(List.range ((sessions.length + INCREMENTAL_CHUNK_SIZE - 1) /
        INCREMENTAL_CHUNK_SIZE)).map
        (fun i => (sessions.drop (i * INCREMENTAL_CHUNK_SIZE)).take
          INCREMENTAL_CHUNK_SIZE), ?_, ?_, ?_, ?_⟩
    · rw [run_incremental_api_plan, if_neg hnle]
    · apply chunksJoin
      have hmod := Nat.div_add_mod (sessions.length + INCREMENTAL_CHUNK_SIZE - 1)
        INCREMENTAL_CHUNK_SIZE
      have hlt : (sessions.length + INCREMENTAL_CHUNK_SIZE - 1) %
          INCREMENTAL_CHUNK_SIZE < INCREMENTAL_CHUNK_SIZE := by
        exact Nat.mod_lt _ (by simp [INCREMENTAL_CHUNK_SIZE])
      simp only [INCREMENTAL_CHUNK_SIZE] at hmod hlt ⊢
      omega
    · intro c hc
      simp only [List.mem_map] at hc
      obtain ⟨i, _, hci⟩ := hc
      rw [← hci]
      simpa [INCREMENTAL_CHUNK_SIZE] using
        List.length_take_le INCREMENTAL_CHUNK_SIZE
          (sessions.drop (i * INCREMENTAL_CHUNK_SIZE))
    · simp [INCREMENTAL_CHUNK_SIZE]

/-- C5 witness: 24 sessions run unchunked; 25 sessions give 2 chunks plus
one merge call. -/
theorem claim_C5_incremental_chunking_witness :
    run_incremental_api_plan (List.range 24) = .single (List.range 24)
    ∧ ∃ chunks : List (List Nat),
        run_incremental_api_plan (List.range 25) = .chunked chunks [] chunks.length
        ∧ chunks.length = 2 :=
  ⟨(claim_C5_incremental_chunking (List.range 24)).1 (by simp),
   by
     obtain ⟨chunks, hplan, _, _, hcount⟩ :=
       (claim_C5_incremental_chunking (List.range 25)).2 (by simp)
     exact ⟨chunks, hplan, by simp [hcount]⟩⟩

end ConvInsights

namespace ConvInsights

/-- C2 counterexample: when the newly rendered bytes equal the existing
sidecar bytes, the claim requires no filesystem mutation at all, but
`cmd_incremental` still calls `_write_json`, which writes the final path
directly (no temp file, no rename). -/
theorem claim_C2_counterexample :
    claimAtomicSidecarTrace (some "{}") "rolling_30d" "{}" = []
    ∧ cmd_incremental_sidecar_trace (some "{}") "rolling_30d" "{}"
        ≠ claimAtomicSidecarTrace (some "{}") "rolling_30d" "{}"
    ∧ WriteOp.writeText (INSIGHTS_INCREMENTAL_DIR ++ ["rolling_30d.json"]) "{}"
        ∈ cmd_incremental_sidecar_trace (some "{}") "rolling_30d" "{}"
    ∧ ∀ op ∈ cmd_incremental_sidecar_trace (some "{}") "rolling_30d" "{}",
        op.isRenameOp = false := by
  refine ⟨rfl, by decide, by decide, by decide⟩

/-- C2 amended: the period sidecar is written with a plain
`Path.write_text` after creating its parent directory; the write is
unconditional (the existing bytes are never compared) and no temp file or
rename is involved. -/
theorem claim_C2_sidecar_write (existing : Option String)
    (periodId rendered : String) :
    cmd_incremental_sidecar_trace existing periodId rendered
      = [WriteOp.mkdirParents INSIGHTS_INCREMENTAL_DIR,
         WriteOp.writeText (INSIGHTS_INCREMENTAL_DIR ++ [periodId ++ ".json"]) rendered]
      ∧ ∀ op ∈ cmd_incremental_sidecar_trace existing periodId rendered,
          op.isRenameOp = false := by
  constructor
  · rfl
  · intro op hop
    simp only [cmd_incremental_sidecar_trace, write_json_trace, List.mem_cons,
      List.mem_singleton] at hop
    rcases hop with h | h | h
    · rw [h]; rfl
    · rw [h]; rfl
    · simp at h

/-- C3 counterexample: with `--window 30d` and no `--since`/`--until`/
`--period-id`, and a clock reading 2026-10-12, the computed period id is
`2026-09-12_to_2026-10-12`, not `rolling_30d`. -/
theorem claim_C3_counterexample :
    cmd_incremental_period_id
      (fun d => if d = 30 then "2026-09-12" else "") "2026-10-12"
      Option.none Option.none Option.none (some "30d")
      = .ok "2026-09-12_to_2026-10-12"
    ∧ "2026-09-12_to_2026-10-12" ≠ "rolling_30d" := by
  exact ⟨rfl, by decide⟩

/-- C3 amended: with `--window 30d` and none of `--period-id`, `--since`,
`--until`, `cmd_incremental` first converts the window into `since = today
− 30 days` and `until = today` and only then builds the period id, so the
id is `<since>_to_<until>` and the sidecar path is
`data/insights/incremental/<since>_to_<until>.json`. -/
theorem claim_C3_window_period_id (isoOfDaysAgo : Nat → String)
    (todayIso : String) (h30 : ¬ (isoOfDaysAgo 30).isEmpty)
    (htoday : ¬ todayIso.isEmpty) :
    cmd_incremental_period_id isoOfDaysAgo todayIso
      Option.none Option.none Option.none (some "30d")
      = .ok (isoOfDaysAgo 30 ++ "_to_" ++ todayIso)
    ∧ ∀ existing rendered,
        cmd_incremental_sidecar_trace existing
          (isoOfDaysAgo 30 ++ "_to_" ++ todayIso) rendered
          = [WriteOp.mkdirParents INSIGHTS_INCREMENTAL_DIR,
             WriteOp.writeText
               (INSIGHTS_INCREMENTAL_DIR ++
                 [isoOfDaysAgo 30 ++ "_to_" ++ todayIso ++ ".json"]) rendered] := by
  constructor
  · have hparse : parse_window_to_since isoOfDaysAgo "30d"
        = .ok (some (isoOfDaysAgo 30)) := rfl
    rw [cmd_incremental_period_id]
    simp only [Option.getD, optStrTruthy, String.isEmpty, hparse]
    have hend : ("30d".endPos == 0) = false := by decide
    simp [hend, build_period_id, optStrTruthy, optStrOr, h30, htoday]
  · intro existing rendered
    rfl

end ConvInsights

namespace ConvInsights

/-- C3 witness: the amended period id at a concrete clock. -/
theorem claim_C3_window_period_id_witness :
    cmd_incremental_period_id
      (fun d => if d = 30 then "2026-09-12" else "") "2026-10-12"
      Option.none Option.none Option.none (some "30d")
      = .ok "2026-09-12_to_2026-10-12" :=
  (claim_C3_window_period_id
    (fun d => if d = 30 then "2026-09-12" else "") "2026-10-12"
    (by decide) (by decide)).1

end ConvInsights

namespace ConvInsights

/-! ### Timeline lemmas (C4) -/

theorem dedupeTimeline_length_le (l : List PyVal) :
    ∀ seen, (dedupeTimeline seen l).length ≤ l.length := by
  induction l with
  | nil => intro seen; simp [dedupeTimeline]
  | cons t rest ih =>
      intro seen
      rw [dedupeTimeline]
      by_cases h1 : timelineTurnId t > 0 ∧ seen.contains (timelineTurnId t)
      · rw [if_pos h1]
        exact le_trans (ih seen) (by simp)
      · rw [if_neg h1]
        by_cases h2 : timelineTurnId t > 0
        · rw [if_pos h2]
          simpa using ih (timelineTurnId t :: seen)
        · rw [if_neg h2]
          simpa using ih seen

theorem dedupeTimeline_eq_claim (l : List PyVal) :
    ∀ seen, (∀ t ∈ l, 0 < timelineTurnId t) →
      dedupeTimeline seen l = claimDedupeTimeline seen l := by
  induction l with
  | nil => intro seen _; rfl
  | cons t rest ih =>
      intro seen hall
      have ht : 0 < timelineTurnId t := hall t (by simp)
      rw [dedupeTimeline, claimDedupeTimeline]
      by_cases hc : seen.contains (timelineTurnId t) = true
      · rw [if_pos ⟨ht, hc⟩, if_pos hc]
        exact ih seen (fun x hx => hall x (by simp [hx]))
      · rw [if_neg (by tauto), if_neg hc, if_pos ht,
          ih (timelineTurnId t :: seen) (fun x hx => hall x (by simp [hx]))]

/-- C4 amended: with at most 12 turns the timeline is all turns in order;
with more, it is `turns[:6] + turns[-6:]` deduplicated by turn id keeping
the first occurrence, where only turns with a positive turn id participate
in deduplication (turns with a missing or non-positive id are always
kept); when every selected turn id is positive this coincides with the
claim's dedupe, and the timeline never exceeds 12 items. -/
theorem claim_C4_timeline_selection (turns : List PyVal) :
    (turns.length ≤ 12 → select_timeline_turns turns = turns)
    ∧ (12 < turns.length →
        select_timeline_turns turns
          = dedupeTimeline [] (turns.take 6 ++ turns.drop (turns.length - 6)))
    ∧ (12 < turns.length →
        (∀ t ∈ turns.take 6 ++ turns.drop (turns.length - 6),
          0 < timelineTurnId t) →
        select_timeline_turns turns = claimTimeline turns)
    ∧ (select_timeline_turns turns).length ≤ 12 := by
  refine ⟨?_, ?_, ?_, ?_⟩
  · intro h
    rw [select_timeline_turns, if_pos h]
  · intro h
    rw [select_timeline_turns, if_neg (by omega)]
  · intro h hall
    rw [select_timeline_turns, if_neg (by omega), claimTimeline,
      if_neg (by omega)]
    exact dedupeTimeline_eq_claim _ [] hall
  · rw [select_timeline_turns]
    by_cases h : turns.length ≤ 12
    · rw [if_pos h]; exact h
    · rw [if_neg h]
      refine le_trans (dedupeTimeline_length_le _ []) ?_
      have h1 := List.length_take_le 6 turns
      have h2 := List.length_drop (turns.length - 6) turns
      simp only [List.length_append]
      omega

/-- C4 counterexample: thirteen turns all carrying `turn_id = 0` defeat
the claim's unconditional dedupe-by-turn-id: the code keeps all 12
selected turns (non-positive ids never deduplicate), while the claim's
description would collapse them to a single entry. -/
theorem claim_C4_counterexample :
    (select_timeline_turns
      (List.replicate 13 (PyVal.dict [("turn_id", PyVal.int 0)]))).length = 12
    ∧ (claimTimeline
        (List.replicate 13 (PyVal.dict [("turn_id", PyVal.int 0)]))).length = 1 := by
  exact ⟨rfl, rfl⟩

/-- C4 witness: 12 distinct-id turns pass through unchanged; 13 turns with
positive distinct ids match the claim's dedupe and stay within 12 items. -/
theorem claim_C4_timeline_selection_witness :
    select_timeline_turns
        ((List.range 12).map (fun i => PyVal.dict [("turn_id", PyVal.int (i + 1))]))
      = (List.range 12).map (fun i => PyVal.dict [("turn_id", PyVal.int (i + 1))])
    ∧ select_timeline_turns
        ((List.range 13).map (fun i => PyVal.dict [("turn_id", PyVal.int (i + 1))]))
      = claimTimeline
        ((List.range 13).map (fun i => PyVal.dict [("turn_id", PyVal.int (i + 1))]))
    ∧ (select_timeline_turns
        ((List.range 13).map (fun i => PyVal.dict [("turn_id", PyVal.int (i + 1))]))).length
      ≤ 12 :=
  ⟨(claim_C4_timeline_selection _).1 (by decide),
   (claim_C4_timeline_selection _).2.2.1 (by decide) (by decide),
   (claim_C4_timeline_selection _).2.2.2⟩

end ConvInsights

namespace ConvInsights

/-! ### Backfill lemmas (C8) -/

theorem checkGeneratedBy_empty_block (g : PyVal)
    (h : checkGeneratedBy g = []) :
    generated_by_block_reason g = Option.none := by
  cases g with
  | dict entries =>
      rw [checkGeneratedBy] at h
      simp only [List.append_eq_nil] at h
      obtain ⟨-, h2⟩ := h
      cases hr : generated_by_block_reason (PyVal.dict entries) with
      | none => rfl
      | some reason => rw [hr] at h2; simp at h2
  | none => simp [checkGeneratedBy] at h
  | bool b => simp [checkGeneratedBy] at h
  | int n => simp [checkGeneratedBy] at h
  | float q => simp [checkGeneratedBy] at h
  | str s => simp [checkGeneratedBy] at h
  | list xs => simp [checkGeneratedBy] at h

theorem validate_session_empty_block (p : PyVal)
    (h : validate_session_mechanism p = []) :
    generated_by_block_reason (p.get "generated_by") = Option.none := by
  rw [validate_session_mechanism] at h
  simp only [List.append_eq_nil] at h
  refine checkGeneratedBy_empty_block _ ?_
  tauto

/-- C8 amended: without `--force-refresh`, backfill selects a conversation
exactly when its sidecar is missing, unparseable, fails the validator, or
is present but low-quality, where low-quality additionally covers a
summary that carries a placeholder marker besides the claim's condition of
lacking a non-placeholder hypothesis with concrete evidence; with
`--force-refresh` every conversation is selected. -/
theorem claim_C8_backfill_selection (forceRefresh : Bool)
    (state : SidecarState) :
    session_needs_backfill forceRefresh state =
      (forceRefresh ||
        match state with
        | .missing => true
        | .unparseable => true
        | .parsed p =>
            ¬ (validate_session_mechanism p).isEmpty
              || contains_placeholder (pyStrOr (p.get "summary"))
              || ¬ claimHasQualitySignal p) := by
  cases forceRefresh with
  | true => simp [session_needs_backfill]
  | false =>
      cases state with
      | missing => rfl
      | unparseable => rfl
      | parsed p =>
          simp only [session_needs_backfill, Bool.false_or, if_false,
            Bool.false_eq_true]
          by_cases hv : (validate_session_mechanism p).isEmpty
          · have hnil : validate_session_mechanism p = [] :=
              List.isEmpty_iff.mp hv
            have hb := validate_session_empty_block p hnil
            rw [if_neg (by simp [hv]), session_has_mechanism_signal,
              claimHasQualitySignal]
            simp only [hb, Option.isSome_none, Bool.false_eq_true, if_false,
              hv, not_false_eq_true]
            by_cases hp : contains_placeholder (pyStrOr (p.get "summary")) = true
            · simp [hp]
            · have hp' : contains_placeholder (pyStrOr (p.get "summary")) = false := by
                cases hc : contains_placeholder (pyStrOr (p.get "summary"))
                · rfl
                · exact absurd hc hp
              simp [hp']
          · rw [if_pos (by simp [hv])]
            simp [hv]

/-- C8 counterexample: a session sidecar that passes the validator and has
a non-placeholder hypothesis with fully concrete evidence, but whose
summary is the placeholder `tbd`, is selected for backfill by the code
even though the claim's characterisation says it is not low-quality. -/
theorem claim_C8_counterexample :
    validate_session_mechanism lowQualitySummaryPayload = []
    ∧ claimNeedsBackfill false (.parsed lowQualitySummaryPayload) = false
    ∧ session_needs_backfill false (.parsed lowQualitySummaryPayload) = true := by
  exact ⟨rfl, rfl, rfl⟩

end ConvInsights

namespace ConvInsights

/-! ### Dict operation lemmas (C10) -/

theorem find?_dictSet_self (es : List (String × PyVal)) (k : String) (v : PyVal) :
    (dictSet es k v).find? (fun kv => kv.1 = k) = some (k, v) := by
  induction es with
  | nil => simp [dictSet]
  | cons kv rest ih =>
      rw [dictSet]
      by_cases h : kv.1 = k
      · rw [if_pos h]
        simp
      · rw [if_neg h]
        rw [List.find?_cons_of_neg _ (by simp [h])]
        exact ih

theorem find?_dictSet_other (es : List (String × PyVal)) (k k' : String)
    (v : PyVal) (h : k' ≠ k) :
    (dictSet es k v).find? (fun kv => kv.1 = k')
      = es.find? (fun kv => kv.1 = k') := by
  induction es with
  | nil => simp [dictSet, Ne.symm h]
  | cons kv rest ih =>
      rw [dictSet]
      by_cases hk : kv.1 = k
      · rw [if_pos hk]
        rw [List.find?_cons_of_neg _ (by simp [Ne.symm h]),
          List.find?_cons_of_neg _ (by simp [hk, Ne.symm h])]
      · rw [if_neg hk]
        by_cases hk' : kv.1 = k'
        · rw [List.find?_cons_of_pos _ (by simp [hk']),
            List.find?_cons_of_pos _ (by simp [hk'])]
        · rw [List.find?_cons_of_neg _ (by simp [hk']),
            List.find?_cons_of_neg _ (by simp [hk'])]
          exact ih

theorem find?_dictSetdefault_other (es : List (String × PyVal)) (k k' : String)
    (v : PyVal) (h : k' ≠ k) :
    (dictSetdefault es k v).find? (fun kv => kv.1 = k')
      = es.find? (fun kv => kv.1 = k') := by
  induction es with
  | nil => simp [dictSetdefault, Ne.symm h]
  | cons kv rest ih =>
      rw [dictSetdefault]
      by_cases hk : kv.1 = k
      · rw [if_pos hk]
      · rw [if_neg hk]
        by_cases hk' : kv.1 = k'
        · rw [List.find?_cons_of_pos _ (by simp [hk']),
            List.find?_cons_of_pos _ (by simp [hk'])]
        · rw [List.find?_cons_of_neg _ (by simp [hk']),
            List.find?_cons_of_neg _ (by simp [hk'])]
          exact ih

theorem find?_dictSetdefault_absent (es : List (String × PyVal)) (k : String)
    (v : PyVal) (h : es.find? (fun kv => kv.1 = k) = Option.none) :
    (dictSetdefault es k v).find? (fun kv => kv.1 = k) = some (k, v) := by
  induction es with
  | nil => simp [dictSetdefault]
  | cons kv rest ih =>
      rw [dictSetdefault]
      by_cases hk : kv.1 = k
      · exfalso
        rw [List.find?_cons_of_pos _ (by simp [hk])] at h
        simp at h
      · rw [if_neg hk]
        rw [List.find?_cons_of_neg _ (by simp [hk])]
        rw [List.find?_cons_of_neg _ (by simp [hk])] at h
        exact ih h

theorem get_dictSet_self (es : List (String × PyVal)) (k : String) (v : PyVal) :
    (PyVal.dict (dictSet es k v)).get k = v := by
  rw [PyVal.get, find?_dictSet_self]

theorem get_dictSet_other (es : List (String × PyVal)) (k k' : String)
    (v : PyVal) (h : k' ≠ k) :
    (PyVal.dict (dictSet es k v)).get k' = (PyVal.dict es).get k' := by
  rw [PyVal.get, PyVal.get, find?_dictSet_other es k k' v h]

theorem get_dictSetdefault_other (es : List (String × PyVal)) (k k' : String)
    (v : PyVal) (h : k' ≠ k) :
    (PyVal.dict (dictSetdefault es k v)).get k' = (PyVal.dict es).get k' := by
  rw [PyVal.get, PyVal.get, find?_dictSetdefault_other es k k' v h]

theorem get_dictSetdefault_absent (es : List (String × PyVal)) (k : String)
    (v : PyVal) (h : es.find? (fun kv => kv.1 = k) = Option.none) :
    (PyVal.dict (dictSetdefault es k v)).get k = v := by
  rw [PyVal.get, find?_dictSetdefault_absent es k v h]

end ConvInsights

namespace ConvInsights

theorem pyStrOf_orElse_str (c : String) :
    pyStrOf ((PyVal.str c).orElse (.str "")) = c := by
  by_cases h : c.isEmpty
  · rw [PyVal.orElse]
    simp [PyVal.truthy, h, pyStrOf]
    exact ((String.isEmpty_iff _).mp h).symm
  · rw [PyVal.orElse]
    simp [PyVal.truthy, h, pyStrOf]

theorem applyGeneratedByDefaults_get_other (runId nowIso : String)
    (r : List (String × PyVal)) (k : String) (h : k ≠ "generated_by") :
    (PyVal.dict (applyGeneratedByDefaults runId nowIso r)).get k
      = (PyVal.dict r).get k := by
  simp only [applyGeneratedByDefaults]
  rw [get_dictSet_other _ _ _ _ h, get_dictSetdefault_other _ _ _ _ h]

theorem applyGeneratedByDefaults_get_absent (runId nowIso : String)
    (r : List (String × PyVal))
    (h : r.find? (fun kv => kv.1 = "generated_by") = Option.none) :
    (PyVal.dict (applyGeneratedByDefaults runId nowIso r)).get "generated_by"
      = .dict [("engine", .str "api"), ("provider", .str "api"),
               ("model", .str "skill"), ("run_id", .str runId),
               ("generated_at", .str nowIso)] := by
  simp only [applyGeneratedByDefaults]
  rw [get_dictSet_self, get_dictSetdefault_absent r _ _ h]
  rfl

theorem applyWeekDefault_get_other (weekOf : String → String)
    (r : List (String × PyVal)) (k : String) (h : k ≠ "week") :
    (PyVal.dict (applyWeekDefault weekOf r)).get k = (PyVal.dict r).get k := by
  rw [applyWeekDefault]
  by_cases hc : ¬ ((PyVal.dict r).get "week").truthy = true ∧
      ((PyVal.dict r).get "created_at").isStr = true
  · rw [if_pos hc, get_dictSet_other _ _ _ _ h]
  · rw [if_neg hc]

theorem applyWeekDefault_get_week_derived (weekOf : String → String)
    (r : List (String × PyVal)) (c : String)
    (hw : ((PyVal.dict r).get "week").truthy = false)
    (hc : (PyVal.dict r).get "created_at" = .str c) :
    (PyVal.dict (applyWeekDefault weekOf r)).get "week" = .str (weekOf c) := by
  rw [applyWeekDefault, if_pos ⟨by simp [hw], by rw [hc]; rfl⟩,
    hc, pyStrOf_orElse_str, get_dictSet_self]

theorem applyPeriodDefault_get_other (r : List (String × PyVal)) (k : String)
    (h : k ≠ "period_id") :
    (PyVal.dict (applyPeriodDefault r)).get k = (PyVal.dict r).get k := by
  rw [applyPeriodDefault]
  by_cases hc : ¬ ((PyVal.dict r).get "period_id").truthy = true ∧
      ((PyVal.dict r).get "week").truthy = true
  · rw [if_pos hc, get_dictSet_other _ _ _ _ h]
  · rw [if_neg hc]

theorem applyPeriodDefault_get_derived (r : List (String × PyVal)) (w : String)
    (hp : ((PyVal.dict r).get "period_id").truthy = false)
    (hw : (PyVal.dict r).get "week" = .str w) (hwne : ¬ w.isEmpty) :
    (PyVal.dict (applyPeriodDefault r)).get "period_id" = .str w := by
  rw [applyPeriodDefault,
    if_pos ⟨by simp [hp], by rw [hw]; simpa [PyVal.truthy] using hwne⟩,
    hw, get_dictSet_self]
  rfl

theorem checkGeneratedBy_api_defaults (runId nowIso : String)
    (hrun1 : ¬ (pyStrip runId).isEmpty)
    (hnow : ¬ (pyStrip nowIso).isEmpty)
    (hrun2 : DISALLOWED_RUN_ID_TOKENS.any
        (fun token => strContains (pyLower (pyStrip runId)) token) = false) :
    checkGeneratedBy
      (.dict [("engine", .str "api"), ("provider", .str "api"),
              ("model", .str "skill"), ("run_id", .str runId),
              ("generated_at", .str nowIso)]) = [] := by
  have hrun1' : (pyStrip runId).isEmpty = false := by
    cases h : (pyStrip runId).isEmpty
    · rfl
    · exact absurd h hrun1
  have hnow' : (pyStrip nowIso).isEmpty = false := by
    cases h : (pyStrip nowIso).isEmpty
    · rfl
    · exact absurd h hnow
  rw [checkGeneratedBy]
  have hrunfield : (PyVal.dict [("engine", PyVal.str "api"),
      ("provider", .str "api"), ("model", .str "skill"),
      ("run_id", .str runId), ("generated_at", .str nowIso)]).get "run_id"
      = .str runId := rfl
  have hnowfield : (PyVal.dict [("engine", PyVal.str "api"),
      ("provider", .str "api"), ("model", .str "skill"),
      ("run_id", .str runId), ("generated_at", .str nowIso)]).get "generated_at"
      = .str nowIso := rfl
  have hblock : generated_by_block_reason
      (.dict [("engine", PyVal.str "api"), ("provider", .str "api"),
              ("model", .str "skill"), ("run_id", .str runId),
              ("generated_at", .str nowIso)]) = Option.none := by
    rw [generated_by_block_reason]
    have hengine : pyLower (pyStrip (pyStrOr ((PyVal.dict
        [("engine", PyVal.str "api"), ("provider", .str "api"),
         ("model", .str "skill"), ("run_id", .str runId),
         ("generated_at", .str nowIso)]).get "engine"))) = "api" := rfl
    rw [hengine]
    rw [if_neg (by decide)]
    have hprov : pyLower (pyStrip (pyStrOr ((PyVal.dict
        [("engine", PyVal.str "api"), ("provider", .str "api"),
         ("model", .str "skill"), ("run_id", .str runId),
         ("generated_at", .str nowIso)]).get "provider"))) = "api" := rfl
    rw [hprov, if_neg (by decide)]
    rw [hrunfield]
    simp only [pyStrOr, PyVal.orElse]
    by_cases hrt : runId.isEmpty
    · have hre : runId = "" := (String.isEmpty_iff _).mp hrt
      rw [hre] at hrun1'
      exact absurd hrun1' (by decide)
    · simp only [PyVal.truthy, hrt, Bool.not_false, if_true, pyStrOf]
      rw [if_neg (by simp [hrun2])]
  simp only [hblock, List.append_nil]
  apply List.filterMap_eq_nil_iff.mpr
  intro key hkey
  fin_cases hkey
  · rfl
  · rfl
  · rfl
  · have hne : isNonEmptyStrVal ((PyVal.dict
        [("engine", PyVal.str "api"), ("provider", .str "api"),
         ("model", .str "skill"), ("run_id", .str runId),
         ("generated_at", .str nowIso)]).get "run_id") = true := by
      rw [hrunfield]
      simp [isNonEmptyStrVal, hrun1']
    simp [hne]
  · have hne : isNonEmptyStrVal ((PyVal.dict
        [("engine", PyVal.str "api"), ("provider", .str "api"),
         ("model", .str "skill"), ("run_id", .str runId),
         ("generated_at", .str nowIso)]).get "generated_at") = true := by
      rw [hnowfield]
      simp [isNonEmptyStrVal, hnow']
    simp [hne]

end ConvInsights

namespace ConvInsights

/-- C10: when `_apply_session_results` processes a record with no
`generated_by` object, the defaults `engine='api'`, `provider='api'`,
`model='skill'`, the run id and the generation time are filled in before
validation; a missing (falsy) `week` is derived from `created_at` via
`_week_from_timestamp` and a missing `period_id` from the derived week;
the defaulted `generated_by` block passes its validation section, so a
payload with no `generated_by` at all still validates and is kept for
persistence as a session sidecar when the rest of the record is valid. -/
theorem claim_C10_generated_by_defaults (weekOf : String → String)
    (runId nowIso c : String) (entries : List (String × PyVal))
    (hgb : entries.find? (fun kv => kv.1 = "generated_by") = Option.none)
    (hweek : ((PyVal.dict entries).get "week").truthy = false)
    (hca : (PyVal.dict entries).get "created_at" = .str c)
    (hperiod : ((PyVal.dict entries).get "period_id").truthy = false)
    (hwof : ¬ (weekOf c).isEmpty)
    (hrun1 : ¬ (pyStrip runId).isEmpty)
    (hnow : ¬ (pyStrip nowIso).isEmpty)
    (hrun2 : DISALLOWED_RUN_ID_TOKENS.any
        (fun token => strContains (pyLower (pyStrip runId)) token) = false) :
    ((PyVal.dict (applySessionDefaults weekOf runId nowIso entries)).get "generated_by"
        = .dict [("engine", .str "api"), ("provider", .str "api"),
                 ("model", .str "skill"), ("run_id", .str runId),
                 ("generated_at", .str nowIso)])
    ∧ checkGeneratedBy
        (.dict [("engine", .str "api"), ("provider", .str "api"),
                ("model", .str "skill"), ("run_id", .str runId),
                ("generated_at", .str nowIso)]) = []
    ∧ (PyVal.dict (applySessionDefaults weekOf runId nowIso entries)).get "week"
        = .str (weekOf c)
    ∧ (PyVal.dict (applySessionDefaults weekOf runId nowIso entries)).get "period_id"
        = .str (weekOf c)
    ∧ (validate_session_mechanism
          (PyVal.dict (applySessionDefaults weekOf runId nowIso entries)) = [] →
        PyVal.dict (applySessionDefaults weekOf runId nowIso entries)
          ∈ applySessionResultsValid weekOf runId nowIso [entries]) := by
  have hfind1 : (dictSetdefault entries "schema_version"
      (.str SESSION_SCHEMA)).find? (fun kv => kv.1 = "generated_by")
      = Option.none := by
    rw [find?_dictSetdefault_other entries "schema_version" "generated_by" _
      (by decide)]
    exact hgb
  have hga_gb := applyGeneratedByDefaults_get_absent runId nowIso
    (dictSetdefault entries "schema_version" (.str SESSION_SCHEMA)) hfind1
  have hga_week : (PyVal.dict (applyGeneratedByDefaults runId nowIso
      (dictSetdefault entries "schema_version" (.str SESSION_SCHEMA)))).get "week"
      = (PyVal.dict entries).get "week" := by
    rw [applyGeneratedByDefaults_get_other _ _ _ _ (by decide),
      get_dictSetdefault_other _ _ _ _ (by decide)]
  have hga_ca : (PyVal.dict (applyGeneratedByDefaults runId nowIso
      (dictSetdefault entries "schema_version" (.str SESSION_SCHEMA)))).get "created_at"
      = (PyVal.dict entries).get "created_at" := by
    rw [applyGeneratedByDefaults_get_other _ _ _ _ (by decide),
      get_dictSetdefault_other _ _ _ _ (by decide)]
  have hga_period : (PyVal.dict (applyGeneratedByDefaults runId nowIso
      (dictSetdefault entries "schema_version" (.str SESSION_SCHEMA)))).get "period_id"
      = (PyVal.dict entries).get "period_id" := by
    rw [applyGeneratedByDefaults_get_other _ _ _ _ (by decide),
      get_dictSetdefault_other _ _ _ _ (by decide)]
  have hwk_week := applyWeekDefault_get_week_derived weekOf
    (applyGeneratedByDefaults runId nowIso
      (dictSetdefault entries "schema_version" (.str SESSION_SCHEMA))) c
    (by rw [hga_week]; exact hweek) (by rw [hga_ca]; exact hca)
  have hwk_gb : (PyVal.dict (applyWeekDefault weekOf
      (applyGeneratedByDefaults runId nowIso (dictSetdefault entries
        "schema_version" (.str SESSION_SCHEMA))))).get "generated_by"
      = .dict [("engine", .str "api"), ("provider", .str "api"),
               ("model", .str "skill"), ("run_id", .str runId),
               ("generated_at", .str nowIso)] := by
    rw [applyWeekDefault_get_other _ _ _ (by decide)]
    exact hga_gb
  have hwk_period : (PyVal.dict (applyWeekDefault weekOf
      (applyGeneratedByDefaults runId nowIso (dictSetdefault entries
        "schema_version" (.str SESSION_SCHEMA))))).get "period_id"
      = (PyVal.dict entries).get "period_id" := by
    rw [applyWeekDefault_get_other _ _ _ (by decide)]
    exact hga_period
  have hpd_period := applyPeriodDefault_get_derived
    (applyWeekDefault weekOf (applyGeneratedByDefaults runId nowIso
      (dictSetdefault entries "schema_version" (.str SESSION_SCHEMA))))
    (weekOf c) (by rw [hwk_period]; exact hperiod) hwk_week hwof
  have hpd_gb : (PyVal.dict (applyPeriodDefault (applyWeekDefault weekOf
      (applyGeneratedByDefaults runId nowIso (dictSetdefault entries
        "schema_version" (.str SESSION_SCHEMA)))))).get "generated_by"
      = .dict [("engine", .str "api"), ("provider", .str "api"),
               ("model", .str "skill"), ("run_id", .str runId),
               ("generated_at", .str nowIso)] := by
    rw [applyPeriodDefault_get_other _ _ (by decide)]
    exact hwk_gb
  have hpd_week : (PyVal.dict (applyPeriodDefault (applyWeekDefault weekOf
      (applyGeneratedByDefaults runId nowIso (dictSetdefault entries
        "schema_version" (.str SESSION_SCHEMA)))))).get "week"
      = .str (weekOf c) := by
    rw [applyPeriodDefault_get_other _ _ (by decide)]
    exact hwk_week
  refine ⟨hpd_gb, checkGeneratedBy_api_defaults runId nowIso hrun1 hnow hrun2,
    hpd_week, hpd_period, ?_⟩
  intro hv
  simp [applySessionResultsValid, hv]

/-- C10 witness: a concrete record with no `generated_by` at all is
defaulted, validates cleanly, and is kept for persistence. -/
theorem claim_C10_generated_by_defaults_witness :
    ((PyVal.dict (applySessionDefaults (fun _ => "2026-W06") "run-1"
        "2026-02-06T12:00:00+00:00"
        [("schema_version", .str "session-mechanism.v1"),
         ("session_id", .str "s-9"),
         ("created_at", .str "2026-02-06T10:00:00+00:00"),
         ("what_happened", .list [.str "Debugged an ingest failure."]),
         ("why", .list
           [.dict
             [("hypothesis", .str "Opening context was too thin."),
              ("evidence", .list
                [.dict
                  [("session_id", .str "s-9"),
                   ("turn_id", .int 1),
                   ("snippet", .str "Please debug this ingest issue")]])]]),
         ("how_to_improve", .list
           [.dict
             [("trigger", .str "New debugging session starts"),
              ("action", .str "State goal and constraints up front"),
              ("expected_gain", .str "Fewer clarification loops"),
              ("validation_window", .str "next 10 sessions")]]),
         ("summary", .str "Opening context was too thin; add constraints.")])).get
        "generated_by"
      = .dict [("engine", .str "api"), ("provider", .str "api"),
               ("model", .str "skill"), ("run_id", .str "run-1"),
               ("generated_at", .str "2026-02-06T12:00:00+00:00")])
    ∧ PyVal.dict (applySessionDefaults (fun _ => "2026-W06") "run-1"
        "2026-02-06T12:00:00+00:00"
        [("schema_version", .str "session-mechanism.v1"),
         ("session_id", .str "s-9"),
         ("created_at", .str "2026-02-06T10:00:00+00:00"),
         ("what_happened", .list [.str "Debugged an ingest failure."]),
         ("why", .list
           [.dict
             [("hypothesis", .str "Opening context was too thin."),
              ("evidence", .list
                [.dict
                  [("session_id", .str "s-9"),
                   ("turn_id", .int 1),
                   ("snippet", .str "Please debug this ingest issue")]])]]),
         ("how_to_improve", .list
           [.dict
             [("trigger", .str "New debugging session starts"),
              ("action", .str "State goal and constraints up front"),
              ("expected_gain", .str "Fewer clarification loops"),
              ("validation_window", .str "next 10 sessions")]]),
         ("summary", .str "Opening context was too thin; add constraints.")])
      ∈ applySessionResultsValid (fun _ => "2026-W06") "run-1"
          "2026-02-06T12:00:00+00:00"
          [[("schema_version", .str "session-mechanism.v1"),
            ("session_id", .str "s-9"),
            ("created_at", .str "2026-02-06T10:00:00+00:00"),
            ("what_happened", .list [.str "Debugged an ingest failure."]),
            ("why", .list
              [.dict
                [("hypothesis", .str "Opening context was too thin."),
                 ("evidence", .list
                   [.dict
                     [("session_id", .str "s-9"),
                      ("turn_id", .int 1),
                      ("snippet", .str "Please debug this ingest issue")]])]]),
            ("how_to_improve", .list
              [.dict
                [("trigger", .str "New debugging session starts"),
                 ("action", .str "State goal and constraints up front"),
                 ("expected_gain", .str "Fewer clarification loops"),
                 ("validation_window", .str "next 10 sessions")]]),
            ("summary", .str "Opening context was too thin; add constraints.")]] := by
  have h := claim_C10_generated_by_defaults (fun _ => "2026-W06") "run-1"
    "2026-02-06T12:00:00+00:00" "2026-02-06T10:00:00+00:00"
    [("schema_version", .str "session-mechanism.v1"),
     ("session_id", .str "s-9"),
     ("created_at", .str "2026-02-06T10:00:00+00:00"),
     ("what_happened", .list [.str "Debugged an ingest failure."]),
     ("why", .list
       [.dict
         [("hypothesis", .str "Opening context was too thin."),
          ("evidence", .list
            [.dict
              [("session_id", .str "s-9"),
               ("turn_id", .int 1),
               ("snippet", .str "Please debug this ingest issue")]])]]),
     ("how_to_improve", .list
       [.dict
         [("trigger", .str "New debugging session starts"),
          ("action", .str "State goal and constraints up front"),
          ("expected_gain", .str "Fewer clarification loops"),
          ("validation_window", .str "next 10 sessions")]]),
     ("summary", .str "Opening context was too thin; add constraints.")]
    rfl rfl rfl rfl (by decide) (by decide) (by decide) (by decide)
  exact ⟨h.1, h.2.2.2.2 rfl⟩

end ConvInsights

namespace ConvInsights

/-! ### String-order lemmas (C9) -/

theorem charListLt_irrefl (l : List Char) : charListLt l l = false := by
  induction l with
  | nil => rfl
  | cons a rest ih =>
      rw [charListLt, if_neg (lt_irrefl a), if_neg (lt_irrefl a)]
      exact ih

theorem charListLt_trans :
    ∀ (a b c : List Char), charListLt a b = true → charListLt b c = true →
      charListLt a c = true
  | [], [], _, h1, _ => by simp [charListLt] at h1
  | [], _ :: _, [], _, h2 => by simp [charListLt] at h2
  | [], _ :: _, _ :: _, _, _ => by rfl
  | _ :: _, [], _, h1, _ => by simp [charListLt] at h1
  | _ :: _, _ :: _, [], _, h2 => by simp [charListLt] at h2
  | x :: xs, y :: ys, z :: zs, h1, h2 => by
      rw [charListLt] at h1 h2 ⊢
      by_cases hxy : x < y
      · by_cases hyz : y < z
        · rw [if_pos (lt_trans hxy hyz)]
        · rw [if_neg hyz] at h2
          by_cases hzy : z < y
          · rw [if_pos hzy] at h2
            simp at h2
          · have hyz' : y = z := le_antisymm (not_lt.mp hzy) (not_lt.mp hyz)
            rw [if_pos (hyz' ▸ hxy)]
      · rw [if_neg hxy] at h1
        by_cases hyx : y < x
        · rw [if_pos hyx] at h1
          simp at h1
        · rw [if_neg hyx] at h1
          have hxy' : x = y := le_antisymm (not_lt.mp hyx) (not_lt.mp hxy)
          by_cases hyz : y < z
          · rw [if_pos (hxy'.symm ▸ hyz : x < z)]
          · rw [if_neg hyz] at h2
            by_cases hzy : z < y
            · rw [if_pos hzy] at h2
              simp at h2
            · rw [if_neg hzy] at h2
              rw [if_neg (hxy'.symm ▸ hyz : ¬ x < z),
                if_neg (hxy'.symm ▸ hzy : ¬ z < x)]
              exact charListLt_trans xs ys zs h1 h2

theorem charListLt_neg_trans :
    ∀ (a b c : List Char), charListLt a b = false → charListLt b c = false →
      charListLt a c = false
  | [], [], _, _, h2 => h2
  | [], _ :: _, _, h1, _ => by simp [charListLt] at h1
  | _ :: _, _, [], _, _ => rfl
  | _ :: _, [], _ :: _, _, h2 => by simp [charListLt] at h2
  | x :: xs, y :: ys, z :: zs, h1, h2 => by
      rw [charListLt] at h1 h2 ⊢
      by_cases hxy : x < y
      · rw [if_pos hxy] at h1
        simp at h1
      · rw [if_neg hxy] at h1
        by_cases hyz : y < z
        · rw [if_pos hyz] at h2
          simp at h2
        · rw [if_neg hyz] at h2
          by_cases hyx : y < x
          · -- z ≤ y < x, so ¬ x < z and z < x
            have hzx : z < x := lt_of_le_of_lt (not_lt.mp hyz) hyx
            rw [if_neg (asymm hzx), if_pos hzx]
          · rw [if_neg hyx] at h1
            have hxy' : x = y := le_antisymm (not_lt.mp hyx) (not_lt.mp hxy)
            by_cases hzy : z < y
            · have hzx : z < x := hxy' ▸ hzy
              rw [if_neg (asymm hzx), if_pos hzx]
            · rw [if_neg hzy] at h2
              have hyz' : y = z := le_antisymm (not_lt.mp hzy) (not_lt.mp hyz)
              have hxz : x = z := hxy'.trans hyz'
              rw [if_neg (hxz ▸ lt_irrefl x : ¬ x < z),
                if_neg (hxz ▸ lt_irrefl x : ¬ z < x)]
              exact charListLt_neg_trans xs ys zs h1 h2

end ConvInsights

namespace ConvInsights

theorem keeperOfPool_spec (rest : List ReportPageItem) :
    ∀ first, keeperOfPool first rest ∈ first :: rest
      ∧ ∀ y ∈ first :: rest,
          strLt (keeperOfPool first rest).sortKey y.sortKey = false := by
  induction rest with
  | nil =>
      intro first
      refine ⟨by simp [keeperOfPool], ?_⟩
      intro y hy
      simp at hy
      rw [hy, keeperOfPool]
      exact charListLt_irrefl _
  | cons x xs ih =>
      intro first
      have hstep : keeperOfPool first (x :: xs)
          = keeperOfPool (if strLt first.sortKey x.sortKey then x else first) xs := by
        rw [keeperOfPool, keeperOfPool, List.foldl_cons]
      obtain ⟨hmem, hmax⟩ := ih (if strLt first.sortKey x.sortKey then x else first)
      constructor
      · rw [hstep]
        by_cases hlt : strLt first.sortKey x.sortKey = true
        · rw [if_pos hlt] at hmem ⊢
          rcases List.mem_cons.mp hmem with h | h
          · simp [h]
          · simp [h]
        · rw [if_neg hlt] at hmem ⊢
          rcases List.mem_cons.mp hmem with h | h
          · simp [h]
          · simp [h]
      · intro y hy
        rw [hstep]
        by_cases hlt : strLt first.sortKey x.sortKey = true
        · rw [if_pos hlt] at hmax ⊢
          rcases List.mem_cons.mp hy with h | h
          · -- y = first: keeper is at least x > first
            subst h
            cases hk : strLt (keeperOfPool x xs).sortKey y.sortKey with
            | false => rfl
            | true =>
                have hxk := hmax x (by simp)
                have hkx : strLt (keeperOfPool x xs).sortKey x.sortKey = true :=
                  charListLt_trans _ _ _ hk hlt
                rw [hkx] at hxk
                exact hxk
          · exact hmax y h
        · rw [if_neg hlt] at hmax ⊢
          rcases List.mem_cons.mp hy with h | h
          · exact hmax y (by simp [h])
          · rcases List.mem_cons.mp h with h' | h'
            · -- y = x: first is at least x
              subst h'
              have hff := hmax first (by simp)
              have hfx : strLt first.sortKey y.sortKey = false := by
                cases hc : strLt first.sortKey y.sortKey
                · rfl
                · exact absurd hc (by simp [hlt])
              exact charListLt_neg_trans _ _ _ hff hfx
            · exact hmax y (by simp [h'])

theorem keeperOfGroup_spec (items : List ReportPageItem) (hne : items ≠ []) :
    ∃ keeper, keeperOfGroup items = some keeper
      ∧ keeper ∈ items
      ∧ (¬ (items.filter (fun i => i.isZh)).isEmpty →
          keeper ∈ items.filter (fun i => i.isZh))
      ∧ ∀ y ∈ (if ¬ (items.filter (fun i => i.isZh)).isEmpty
            then items.filter (fun i => i.isZh) else items),
          strLt keeper.sortKey y.sortKey = false := by
  rw [keeperOfGroup]
  by_cases hz : (items.filter (fun i => i.isZh)).isEmpty
  · rw [if_neg (by simp [hz])]
    obtain ⟨first, rest, rfl⟩ := List.exists_cons_of_ne_nil hne
    obtain ⟨hmem, hmax⟩ := keeperOfPool_spec rest first
    exact ⟨keeperOfPool first rest, rfl, hmem, fun h => absurd hz h, hmax⟩
  · rw [if_pos (by simp [hz])]
    have hne2 : items.filter (fun i => i.isZh) ≠ [] := by
      intro hc
      rw [hc] at hz
      simp at hz
    obtain ⟨first, rest, hfil⟩ := List.exists_cons_of_ne_nil hne2
    rw [hfil]
    obtain ⟨hmem, hmax⟩ := keeperOfPool_spec rest first
    refine ⟨keeperOfPool first rest, rfl, ?_, fun _ => hmem, hmax⟩
    exact List.mem_of_mem_filter (hfil.symm ▸ hmem)

end ConvInsights

namespace ConvInsights

theorem groupInsert_nonempty (k : String × String) (it : ReportPageItem) :
    ∀ gs, (∀ g ∈ gs, g.2 ≠ []) →
      ∀ g ∈ groupInsert k it gs, g.2 ≠ [] := by
  intro gs
  induction gs with
  | nil =>
      intro _ g hg
      simp [groupInsert] at hg
      simp [hg]
  | cons g0 rest ih =>
      intro hgs g hg
      rw [groupInsert] at hg
      by_cases hk : g0.1 = k
      · rw [if_pos hk] at hg
        rcases List.mem_cons.mp hg with h | h
        · rw [h]
          simp
        · exact hgs g (by simp [h])
      · rw [if_neg hk] at hg
        rcases List.mem_cons.mp hg with h | h
        · exact hgs g (by simp [h])
        · exact ih (fun g' hg' => hgs g' (by simp [hg'])) g h

theorem groupPages_nonempty (pages : List NotionPage) :
    ∀ g ∈ groupPages pages, g.2 ≠ [] := by
  rw [groupPages]
  suffices h : ∀ gs, (∀ g ∈ gs, g.2 ≠ []) →
      ∀ g ∈ pages.foldl (fun grouped page =>
        let key := (page.dimension, page.period)
        if key.1.isEmpty ∨ key.2.isEmpty then grouped
        else
          let item := mkReportPageItem page
          if item.id.isEmpty then grouped
          else groupInsert key item grouped) gs, g.2 ≠ [] by
    exact h [] (by simp)
  induction pages with
  | nil => intro gs hgs; simpa using hgs
  | cons p ps ih =>
      intro gs hgs
      rw [List.foldl_cons]
      apply ih
      by_cases h1 : p.dimension.isEmpty ∨ p.period.isEmpty
      · simpa [h1] using hgs
      · rw [if_neg (by simpa using h1)]
        by_cases h2 : (mkReportPageItem p).id.isEmpty
        · simpa [h2] using hgs
        · rw [if_neg (by simpa using h2)]
          exact groupInsert_nonempty _ _ gs hgs

theorem groupDuplicates_mem (key : String × String)
    (items : List ReportPageItem) (keeper x : ReportPageItem)
    (hx : x ∈ items) (hid : ¬ x.id.isEmpty) (hne : x.id ≠ keeper.id) :
    ∃ d ∈ groupDuplicates key items keeper, d.pageId = x.id := by
  refine ⟨{ pageId := x.id, key := key.1 ++ "|" ++ key.2, title := x.title }, ?_, rfl⟩
  rw [groupDuplicates]
  exact List.mem_filterMap.mpr ⟨x, hx, by rw [if_pos ⟨hid, hne⟩]⟩

theorem sync_after_index_abort {α : Type} (duplicates : List DuplicateAction)
    (archOk : String → Bool) (reports : List α) (writeOk : α → Bool)
    (d : DuplicateAction) (hd : d ∈ duplicates)
    (hfail : archOk d.pageId = false) :
    sync_after_index duplicates archOk reports writeOk = (1, 0) := by
  rw [sync_after_index, if_pos]
  constructor
  · simp
    exact List.ne_nil_of_mem hd
  · have : d ∈ duplicates.filter (fun d => ¬ archOk d.pageId) :=
      List.mem_filter.mpr ⟨hd, by simp [hfail]⟩
    have := List.length_pos.mpr (List.ne_nil_of_mem this)
    omega

/-- C9: the report sync groups external-DB pages by (dimension, period);
within each group the keeper is chosen from the CJK-bearing subset when
non-empty (otherwise the whole group) as the earliest page with the
maximal sort key (`last_edited_time`, falling back to `created_time`);
every other page of the group is recorded as a duplicate, and the sync
archives the duplicates before writing any report, exiting non-zero with
zero report writes when any archival fails. -/
theorem claim_C9_sync_dedupe_keeper {α : Type} (pages : List NotionPage)
    (archOk : String → Bool) (reports : List α) (writeOk : α → Bool) :
    (∀ key items, (key, items) ∈ groupPages pages →
      ∃ keeper, keeperOfGroup items = some keeper
        ∧ keeper ∈ items
        ∧ (¬ (items.filter (fun i => i.isZh)).isEmpty →
            keeper ∈ items.filter (fun i => i.isZh))
        ∧ (∀ y ∈ (if ¬ (items.filter (fun i => i.isZh)).isEmpty
              then items.filter (fun i => i.isZh) else items),
            strLt keeper.sortKey y.sortKey = false)
        ∧ (∀ x ∈ items, ¬ x.id.isEmpty → x.id ≠ keeper.id →
            ∃ d ∈ groupDuplicates key items keeper, d.pageId = x.id))
    ∧ (∀ duplicates : List DuplicateAction, ∀ d ∈ duplicates,
        archOk d.pageId = false →
        sync_after_index duplicates archOk reports writeOk = (1, 0)) := by
  constructor
  · intro key items hmem
    have hne : items ≠ [] := groupPages_nonempty pages (key, items) hmem
    obtain ⟨keeper, hk, hkm, hz, hmax⟩ := keeperOfGroup_spec items hne
    exact ⟨keeper, hk, hkm, hz, hmax,
      fun x hx hid hne' => groupDuplicates_mem key items keeper x hx hid hne'⟩
  · intro duplicates d hd hfail
    exact sync_after_index_abort duplicates archOk reports writeOk d hd hfail

end ConvInsights

namespace ConvInsights

/-- C9 witness: with a CJK page and a newer English duplicate under the
same (dimension, period), the group's keeper exists, is a member, and is
drawn from the CJK subset; and one failing archival aborts the sync with
exit code 1 before any report write. -/
theorem claim_C9_sync_dedupe_keeper_witness :
    (∃ keeper, keeperOfGroup [mkReportPageItem zhReportPage,
        mkReportPageItem enReportPage] = some keeper
      ∧ keeper ∈ [mkReportPageItem zhReportPage, mkReportPageItem enReportPage]
      ∧ (¬ (([mkReportPageItem zhReportPage,
            mkReportPageItem enReportPage].filter (fun i => i.isZh))).isEmpty →
          keeper ∈ [mkReportPageItem zhReportPage,
            mkReportPageItem enReportPage].filter (fun i => i.isZh)))
    ∧ sync_after_index
        [{ pageId := "page-en", key := "incremental-root-causes|rolling_30d",
           title := "Incremental Root Causes - rolling_30d" }]
        (fun _ => false) ([] : List Nat) (fun _ => true) = (1, 0) := by
  have h := claim_C9_sync_dedupe_keeper [zhReportPage, enReportPage]
    (fun _ => false) ([] : List Nat) (fun _ => true)
  obtain ⟨keeper, hk, hkm, hz, -, -⟩ := h.1
    ("incremental-root-causes", "rolling_30d")
    [mkReportPageItem zhReportPage, mkReportPageItem enReportPage]
    (by decide)
  refine ⟨⟨keeper, hk, hkm, hz⟩, ?_⟩
  exact h.2
    [{ pageId := "page-en", key := "incremental-root-causes|rolling_30d",
       title := "Incremental Root Causes - rolling_30d" }]
    { pageId := "page-en", key := "incremental-root-causes|rolling_30d",
      title := "Incremental Root Causes - rolling_30d" }
    (by simp) rfl

end ConvInsights

namespace ConvInsights

/-! ### Substring and registry lemmas (C6) -/

theorem isPrefixOf_self_append (n y : List Char) :
    n.isPrefixOf (n ++ y) = true := by
  induction n with
  | nil => simp [List.isPrefixOf]
  | cons c rest ih => simp [List.isPrefixOf, ih]

theorem listHasInfix_append (n x y : List Char) :
    listHasInfix n (x ++ (n ++ y)) = true := by
  induction x with
  | nil =>
      cases n with
      | nil =>
          cases y with
          | nil => rfl
          | cons c rest => rfl
      | cons c rest =>
          rw [List.nil_append]
          simp [listHasInfix, isPrefixOf_self_append (c :: rest) y]
  | cons c x' ih =>
      rw [List.cons_append]
      simp [listHasInfix, ih]

theorem layer_error_contains (idx : Nat) (expected dim : String) :
    strContains
      ("reports[" ++ toString idx ++ "].layer must be '" ++ expected ++
        "' for dimension '" ++ dim ++ "'")
      ("layer must be '" ++ expected ++ "'") = true := by
  rw [strContains]
  have hdata : ("reports[" ++ toString idx ++ "].layer must be '" ++ expected ++
      "' for dimension '" ++ dim ++ "'").data
      = ("reports[" ++ toString idx ++ "].").data ++
        (("layer must be '" ++ expected ++ "'").data ++
          (" for dimension '" ++ dim ++ "'").data) := by
    simp [String.data_append, List.append_assoc]
  rw [hdata]
  exact listHasInfix_append _ _ _

theorem dimensionLayerGet_nonempty (d l : String)
    (h : dimensionLayerGet d = some l) : ¬ d.isEmpty ∧ ¬ l.isEmpty := by
  rw [dimensionLayerGet] at h
  cases hf : DIMENSION_LAYER_PAIRS.find? (fun kv => kv.1 = d) with
  | none => rw [hf] at h; simp at h
  | some kv =>
      rw [hf] at h
      simp at h
      have hpred := List.find?_some hf
      have hmem := List.mem_of_find?_eq_some hf
      have hd : kv.1 = d := by simpa using hpred
      rw [← hd, ← h]
      fin_cases hmem <;> exact ⟨by decide, by decide⟩

end ConvInsights

namespace ConvInsights

theorem checkReportItem_layer_mem (periodId week : PyVal) (idx : Nat)
    (seen : List (String × String)) (entries : List (String × PyVal))
    (expected : String)
    (hdim : dimensionLayerGet (pyStrip (pyStrOr
      ((PyVal.dict entries).get "dimension"))) = some expected)
    (hlne : ¬ (pyStrip (pyStrOr ((PyVal.dict entries).get "layer"))).isEmpty)
    (hldiff : pyStrip (pyStrOr ((PyVal.dict entries).get "layer")) ≠ expected) :
    ("reports[" ++ toString idx ++ "].layer must be '" ++ expected ++
      "' for dimension '" ++
      pyStrip (pyStrOr ((PyVal.dict entries).get "dimension")) ++ "'")
      ∈ (checkReportItem periodId week idx seen (PyVal.dict entries)).1 := by
  obtain ⟨hdne, hene⟩ := dimensionLayerGet_nonempty _ _ hdim
  simp only [checkReportItem, hdim]
  apply List.mem_append_left
  apply List.mem_append_left
  apply List.mem_append_left
  apply List.mem_append_left
  apply List.mem_append_left
  apply List.mem_append_right
  rw [if_pos ⟨hdne, hene, hlne, hldiff⟩]
  simp

theorem checkReportsFrom_layer_mem (periodId week : PyVal) (expected : String) :
    ∀ (items : List PyVal) (j : Nat) (entries : List (String × PyVal)),
      items.get? j = some (PyVal.dict entries) →
      dimensionLayerGet (pyStrip (pyStrOr
        ((PyVal.dict entries).get "dimension"))) = some expected →
      ¬ (pyStrip (pyStrOr ((PyVal.dict entries).get "layer"))).isEmpty →
      pyStrip (pyStrOr ((PyVal.dict entries).get "layer")) ≠ expected →
      ∀ (start : Nat) (seen : List (String × String)),
        ("reports[" ++ toString (start + j) ++ "].layer must be '" ++ expected ++
          "' for dimension '" ++
          pyStrip (pyStrOr ((PyVal.dict entries).get "dimension")) ++ "'")
          ∈ checkReportsFrom periodId week start seen items := by
  intro items
  induction items with
  | nil =>
      intro j entries hj
      simp at hj
  | cons item rest ih =>
      intro j entries hj hdim hlne hldiff start seen
      rw [checkReportsFrom]
      cases j with
      | zero =>
          rw [List.get?_cons_zero] at hj
          have hj' : item = PyVal.dict entries := by injection hj
          subst hj'
          apply List.mem_append_left
          simpa using
            checkReportItem_layer_mem periodId week start seen entries expected
              hdim hlne hldiff
      | succ j' =>
          rw [List.get?_cons_succ] at hj
          apply List.mem_append_right
          have hrec := ih j' entries hj hdim hlne hldiff (start + 1)
            (checkReportItem periodId week start seen item).2
          rw [show start + (j' + 1) = start + 1 + j' by omega]
          exact hrec

/-- C6: a report whose dimension is in the Dimension Registry but whose
non-empty layer differs from the registry layer makes the incremental
validator emit an error that quotes the expected layer
(`layer must be '<expected>'`). -/
theorem claim_C6_layer_mismatch (payload : PyVal) (items : List PyVal)
    (j : Nat) (entries : List (String × PyVal)) (expected : String)
    (hrep : payload.get "reports" = .list items)
    (hj : items.get? j = some (PyVal.dict entries))
    (hdim : dimensionLayerGet (pyStrip (pyStrOr
      ((PyVal.dict entries).get "dimension"))) = some expected)
    (hlne : ¬ (pyStrip (pyStrOr ((PyVal.dict entries).get "layer"))).isEmpty)
    (hldiff : pyStrip (pyStrOr ((PyVal.dict entries).get "layer")) ≠ expected) :
    ∃ e ∈ validate_incremental_mechanism payload,
      e = "reports[" ++ toString j ++ "].layer must be '" ++ expected ++
          "' for dimension '" ++
          pyStrip (pyStrOr ((PyVal.dict entries).get "dimension")) ++ "'"
      ∧ strContains e ("layer must be '" ++ expected ++ "'") = true := by
  refine ⟨_, ?_, rfl, layer_error_contains j expected _⟩
  simp only [validate_incremental_mechanism, hrep]
  apply List.mem_append_left
  apply List.mem_append_left
  apply List.mem_append_right
  have hne : items ≠ [] := by
    intro hc
    rw [hc] at hj
    simp at hj
  rw [if_neg (by simp [hne])]
  have hmem := checkReportsFrom_layer_mem (payload.get "period_id")
    (payload.get "week") expected items j entries hj hdim hlne hldiff 0 []
  simpa using hmem

/-- C6 witness: a report with dimension `incremental-task-stratification`
(registry layer L2) and layer L3 produces an error containing
`layer must be 'L2'`. -/
theorem claim_C6_layer_mismatch_witness :
    ∃ e ∈ validate_incremental_mechanism
      (.dict [("reports", .list
        [.dict [("dimension", .str "incremental-task-stratification"),
                ("layer", .str "L3")]])]),
      e = "reports[0].layer must be 'L2' for dimension " ++
          "'incremental-task-stratification'"
      ∧ strContains e "layer must be 'L2'" = true := by
  have h := claim_C6_layer_mismatch
    (.dict [("reports", .list
      [.dict [("dimension", .str "incremental-task-stratification"),
              ("layer", .str "L3")]])])
    [.dict [("dimension", .str "incremental-task-stratification"),
            ("layer", .str "L3")]]
    0
    [("dimension", .str "incremental-task-stratification"),
     ("layer", .str "L3")]
    "L2" rfl rfl rfl (by decide) (by decide)
  simpa using h

end ConvInsights

namespace ConvInsights

/-! ### Exception-freedom lemmas (C7) -/

theorem checkDetailLinesE_ok (idx : Nat) (detailLines : List PyVal) :
    checkDetailLinesE idx detailLines = .ok (checkDetailLines idx detailLines) := by
  rw [checkDetailLinesE, checkDetailLines]
  by_cases hlen : (normalizedDetailLines detailLines).length ≥ 20
  · rw [if_pos hlen, if_pos hlen]
    have hpos : (normalizedDetailLines detailLines).length ≠ 0 := by omega
    simp only [pyDivE]
    rw [if_neg hpos]
    have hratio : ((7 : ℚ) / 10 ≤
        (((normalizedDetailLines detailLines).filter evidenceDumpSearch).length : ℚ) /
          ((normalizedDetailLines detailLines).length : ℚ))
        ↔ 10 * ((normalizedDetailLines detailLines).filter evidenceDumpSearch).length
          ≥ 7 * (normalizedDetailLines detailLines).length := by
      rw [div_le_div_iff₀ (by norm_num)
        (by exact_mod_cast Nat.pos_of_ne_zero hpos)]
      constructor
      · intro h
        have h' : 7 * (normalizedDetailLines detailLines).length ≤
            ((normalizedDetailLines detailLines).filter evidenceDumpSearch).length * 10 := by
          exact_mod_cast h
        omega
      · intro h
        have h' : 7 * (normalizedDetailLines detailLines).length ≤
            ((normalizedDetailLines detailLines).filter evidenceDumpSearch).length * 10 := by
          omega
        exact_mod_cast h'
    by_cases hc : 10 * ((normalizedDetailLines detailLines).filter
        evidenceDumpSearch).length ≥ 7 * (normalizedDetailLines detailLines).length
    · simp only [Bind.bind, Except.bind, pure, Except.pure]
      rw [if_pos (hratio.mpr hc), if_pos hc]
    · simp only [Bind.bind, Except.bind, pure, Except.pure]
      rw [if_neg (fun hcon => hc (hratio.mp hcon)), if_neg hc]
  · rw [if_neg hlen, if_neg hlen]
    rfl

theorem checkReportItemE_ok (periodId week : PyVal) (idx : Nat)
    (seen : List (String × String)) (item : PyVal) :
    checkReportItemE periodId week idx seen item
      = .ok (checkReportItem periodId week idx seen item) := by
  cases item with
  | dict entries =>
      rw [checkReportItemE, checkReportItem]
      cases hdl : (PyVal.dict entries).get "detail_lines" with
      | list ls =>
          simp only [hdl, checkDetailLinesE_ok]
          rfl
      | none => simp only [hdl]; rfl
      | bool b => simp only [hdl]; rfl
      | int n => simp only [hdl]; rfl
      | float q => simp only [hdl]; rfl
      | str s => simp only [hdl]; rfl
      | dict d => simp only [hdl]; rfl
  | none => rfl
  | bool b => rfl
  | int n => rfl
  | float q => rfl
  | str s => rfl
  | list xs => rfl

theorem checkReportsFromE_ok (periodId week : PyVal) :
    ∀ (items : List PyVal) (idx : Nat) (seen : List (String × String)),
      checkReportsFromE periodId week idx seen items
        = .ok (checkReportsFrom periodId week idx seen items) := by
  intro items
  induction items with
  | nil => intro idx seen; rfl
  | cons item rest ih =>
      intro idx seen
      rw [checkReportsFromE, checkReportsFrom]
      simp only [checkReportItemE_ok, ih]
      rfl

theorem validate_evidenceE_ok (ev : PyVal) (index : Nat)
    (h : tierHashable (ev.get "tier") = true) :
    validate_evidenceE ev index = .ok (validate_evidence ev index) := by
  rw [validate_evidenceE, validate_evidence]
  cases htier : ev.get "tier" with
  | list xs => rw [htier] at h; exact absurd h (by simp [tierHashable])
  | dict d => rw [htier] at h; exact absurd h (by simp [tierHashable])
  | none =>
      simp [htier, PyVal.isNone, pyHashE, Bind.bind, Except.bind, pure,
        Except.pure, pyEqStr]
  | bool b =>
      simp [htier, PyVal.isNone, pyHashE, Bind.bind, Except.bind, pure,
        Except.pure, pyEqStr]
  | int n =>
      simp [htier, PyVal.isNone, pyHashE, Bind.bind, Except.bind, pure,
        Except.pure, pyEqStr]
  | float q =>
      simp [htier, PyVal.isNone, pyHashE, Bind.bind, Except.bind, pure,
        Except.pure, pyEqStr]
  | str s =>
      simp [htier, PyVal.isNone, pyHashE, Bind.bind, Except.bind, pure,
        Except.pure, pyEqStr]

theorem all_snd_enumFrom {α : Type} (f : α → Bool) :
    ∀ (l : List α) (n : Nat), l.all f = true →
      (l.enumFrom n).all (fun p => f p.2) = true := by
  intro l
  induction l with
  | nil => intro n h; rfl
  | cons x xs ih =>
      intro n h
      rw [List.all_cons, Bool.and_eq_true] at h
      obtain ⟨hx, hxs⟩ := h
      rw [List.enumFrom, List.all_cons, Bool.and_eq_true]
      exact ⟨hx, ih (n + 1) hxs⟩

theorem checkEvidenceListE_ok (idx : Nat) :
    ∀ pairs : List (Nat × PyVal),
      pairs.all (fun p => evTierHashable p.2) = true →
      checkEvidenceListE idx pairs
        = .ok ((pairs.map (fun p =>
            match p.2 with
            | PyVal.dict _ => validate_evidence p.2 p.1
            | _ => ["why[" ++ toString idx ++ "].evidence[" ++
                toString p.1 ++ "] must be object"])).flatten) := by
  intro pairs
  induction pairs with
  | nil => intro h; rfl
  | cons p rest ih =>
      intro h
      rw [List.all_cons, Bool.and_eq_true] at h
      obtain ⟨hp, hrest⟩ := h
      rw [checkEvidenceListE, List.map_cons, List.flatten_cons, ih hrest]
      cases hpv : p.2 with
      | dict d =>
          rw [hpv] at hp
          simp only [validate_evidenceE_ok (PyVal.dict d) p.1 hp, Bind.bind,
            Except.bind, pure, Except.pure]
      | none => rfl
      | bool b => rfl
      | int n => rfl
      | float q => rfl
      | str s => rfl
      | list xs => rfl

theorem checkWhyItemE_ok (idx : Nat) (item : PyVal)
    (h : whyItemTierSafe item = true) :
    checkWhyItemE idx item = .ok (checkWhyItem idx item) := by
  cases item with
  | dict entries =>
      rw [checkWhyItemE, checkWhyItem]
      cases hev : (PyVal.dict entries).get "evidence" with
      | list evs =>
          simp only [whyItemTierSafe, hev] at h
          simp only [hev]
          by_cases hempty : evs.isEmpty
          · rw [if_pos hempty]
            simp only [Bind.bind, Except.bind, pure, Except.pure]
            rw [if_pos hempty]
          · rw [if_neg hempty,
              checkEvidenceListE_ok idx evs.enum (all_snd_enumFrom evTierHashable evs 0 h)]
            simp only [Bind.bind, Except.bind, pure, Except.pure]
            rw [if_neg hempty]
      | none => simp only [hev]; rfl
      | bool b => simp only [hev]; rfl
      | int n => simp only [hev]; rfl
      | float q => simp only [hev]; rfl
      | str s => simp only [hev]; rfl
      | dict d => simp only [hev]; rfl
  | none => rfl
  | bool b => rfl
  | int n => rfl
  | float q => rfl
  | str s => rfl
  | list xs => rfl

theorem checkWhyListE_ok :
    ∀ pairs : List (Nat × PyVal),
      pairs.all (fun p => whyItemTierSafe p.2) = true →
      checkWhyListE pairs
        = .ok ((pairs.map (fun p => checkWhyItem p.1 p.2)).flatten) := by
  intro pairs
  induction pairs with
  | nil => intro h; rfl
  | cons p rest ih =>
      intro h
      rw [List.all_cons, Bool.and_eq_true] at h
      obtain ⟨hp, hrest⟩ := h
      rw [checkWhyListE, List.map_cons, List.flatten_cons, ih hrest,
        checkWhyItemE_ok p.1 p.2 hp]
      rfl

/-- C7 counterexample: the claim that the validators never raise on a
decoded payload object is false — on a dict payload whose `why` item
carries an evidence entry with `tier: []`, the membership test of
`_validate_evidence` hashes the list and `validate_session_mechanism`
raises `TypeError` instead of returning an error list (the instrumented
embedding returns the exception). -/
theorem claim_C7_counterexample :
    validate_session_mechanismE
      (.dict [("why", .list [.dict [("evidence",
        .list [.dict [("tier", .list [])]])]])])
      = .error "TypeError: unhashable type: 'list'" := rfl

/-- C7 (amended): on every decoded payload object (dict), the incremental
validator is exception-free, and the session validator is exception-free
provided its `why` loop reaches no unhashable (list- or dict-valued)
evidence `tier`: the `Except`-instrumented embeddings — in which attribute
access on a non-dict, division by zero and the tier membership test's
hashing raise — return exactly the pure validators' ordered error list. -/
theorem claim_C7_validators_no_raise (entries₁ entries₂ : List (String × PyVal))
    (h : whyTiersHashable (.dict entries₁) = true) :
    validate_session_mechanismE (.dict entries₁)
      = .ok (validate_session_mechanism (.dict entries₁))
    ∧ validate_incremental_mechanismE (.dict entries₂)
      = .ok (validate_incremental_mechanism (.dict entries₂)) := by
  constructor
  · rw [validate_session_mechanismE, validate_session_mechanism]
    simp only [pyGetE, Bind.bind, Except.bind]
    cases hwhy : (PyVal.dict entries₁).get "why" with
    | list items =>
        simp only [whyTiersHashable, hwhy] at h
        simp only [hwhy]
        by_cases hempty : items.isEmpty
        · rw [if_pos hempty]
          simp only [Bind.bind, Except.bind, pure, Except.pure]
          rw [if_pos hempty]
        · rw [if_neg hempty,
            checkWhyListE_ok items.enum (all_snd_enumFrom whyItemTierSafe items 0 h)]
          simp only [Bind.bind, Except.bind, pure, Except.pure]
          rw [if_neg hempty]
    | none => simp only [hwhy]; rfl
    | bool b => simp only [hwhy]; rfl
    | int n => simp only [hwhy]; rfl
    | float q => simp only [hwhy]; rfl
    | str s => simp only [hwhy]; rfl
    | dict d => simp only [hwhy]; rfl
  · rw [validate_incremental_mechanismE, validate_incremental_mechanism]
    simp only [pyGetE, Bind.bind, Except.bind]
    cases hrep : (PyVal.dict entries₂).get "reports" with
    | list items =>
        simp only [hrep]
        by_cases hempty : items.isEmpty
        · rw [if_pos hempty]
          simp only [Bind.bind, Except.bind, pure, Except.pure]
          rw [if_pos hempty]
        · rw [if_neg hempty]
          simp only [checkReportsFromE_ok, Bind.bind, Except.bind, pure,
            Except.pure]
          rw [if_neg hempty]
    | none => simp only [hrep]; rfl
    | bool b => simp only [hrep]; rfl
    | int n => simp only [hrep]; rfl
    | float q => simp only [hrep]; rfl
    | str s => simp only [hrep]; rfl
    | dict d => simp only [hrep]; rfl

/-- C7 witness: the amended theorem at a concrete session payload whose
evidence carries the hashable tier `primary` and a concrete incremental
payload with a reports list. -/
theorem claim_C7_validators_no_raise_witness :
    whyTiersHashable (.dict c7SessionEntries) = true
    ∧ validate_session_mechanismE (.dict c7SessionEntries)
        = .ok (validate_session_mechanism (.dict c7SessionEntries))
    ∧ validate_incremental_mechanismE (.dict c7IncrementalEntries)
        = .ok (validate_incremental_mechanism (.dict c7IncrementalEntries)) := by
  refine ⟨rfl, ?_, ?_⟩
  · exact (claim_C7_validators_no_raise c7SessionEntries c7IncrementalEntries rfl).1
  · exact (claim_C7_validators_no_raise c7SessionEntries c7IncrementalEntries rfl).2

end ConvInsights
